import Mathlib

/-!
PCM179x codec driver, control-plane model.

A shallow embedding of `sound/soc/codecs/pcm179x.c`: the private session
record, the register map behind `regmap_update_bits`, and the four
operations that touch them (`pcm179x_hw_params`, `pcm179x_digital_mute`,
`spdif_put_input`, `spdif_switch_put`), followed by the clock mask of
the board driver `sound/soc/bcm/giotto.c` and the gain conversions of
`drivers/iio/potentiometer/ds1807.c`.

Machine integers are natural numbers or integers with explicit
truncation: `u8` stores are taken modulo `2^8`, `unsigned int` values
modulo `2^32`.
-/

namespace Pcm179x

/-! ## Constants of the driver (pcm179x.c lines 37-63) -/

abbrev PCM179X_DAC_VOL_LEFT : Nat := 0x10
abbrev PCM179X_DAC_VOL_RIGHT : Nat := 0x11
abbrev PCM179X_FMT_CONTROL : Nat := 0x12
abbrev PCM179X_MODE_CONTROL : Nat := 0x13
abbrev PCM179X_CONF_CONTROL : Nat := 0x14
abbrev PCM179X_SOFT_MUTE : Nat := PCM179X_FMT_CONTROL

abbrev PCM179X_FMT_MASK : Nat := 0x70
abbrev PCM179X_FMT_SHIFT : Nat := 4
abbrev PCM179X_MUTE_MASK : Nat := 0x01
abbrev PCM179X_MUTE_SHIFT : Nat := 0
abbrev PCM179X_ATLD_ENABLE : Nat := 1 <<< 7
abbrev PCM179X_DSD_ENABLE : Nat := 1 <<< 5
abbrev PCM179x_CODEC_RST : Nat := 1 <<< 6

/-- The macro `PCM179X_DSD_FILTER(X)`, `(((X) & 0x3) << 2)`. -/
abbrev PCM179X_DSD_FILTER (x : Nat) : Nat := (x &&& 0x3) <<< 2

abbrev CLK2 : Nat := 1 <<< 0
abbrev CLK1 : Nat := 1 <<< 1
abbrev CLK0 : Nat := 1 <<< 2
abbrev W32 : Nat := 1 <<< 3
abbrev DSD_EN : Nat := 1 <<< 4
abbrev SPDIF_IN : Nat := 1 <<< 5
abbrev SPDIF_SEL : Nat := 1 <<< 6

abbrev DACMAX_SPEED_MAX : Nat := 0xff
abbrev DACMAX_CLOCK : Nat := 0x20

/-! ## Constants of the kernel headers the driver includes

These come from `include/uapi/asm-generic/errno-base.h`,
`include/uapi/sound/asound.h` and `include/sound/soc-dai.h`. -/

abbrev EINVAL : Int := 22

abbrev SNDRV_PCM_FORMAT_S16_LE : Int := 2
abbrev SNDRV_PCM_FORMAT_S24_LE : Int := 6
abbrev SNDRV_PCM_FORMAT_S32_LE : Int := 10
abbrev SNDRV_PCM_FORMAT_DSD_U16_LE : Int := 49

abbrev SND_SOC_DAIFMT_I2S : Nat := 1
abbrev SND_SOC_DAIFMT_RIGHT_J : Nat := 2
abbrev SND_SOC_DAIFMT_LEFT_J : Nat := 3
abbrev SND_SOC_DAIFMT_FORMAT_MASK : Nat := 0x000f

/-! ## Machine integers -/

/-- Conversion of a C `int` to `unsigned int` (32 bits). -/
def toU32 (x : Int) : Nat := (x % 4294967296).toNat

/-- Conversion of a C `unsigned int` to `int` (32 bits, two's complement). -/
def toS32 (n : Nat) : Int :=
  if n % 4294967296 < 2147483648 then ((n % 4294967296 : Nat) : Int)
  else ((n % 4294967296 : Nat) : Int) - 4294967296

/-- Bitwise complement of a 32-bit value, the C `~x` on `int`/`unsigned int`. -/
def not32 (x : Nat) : Nat := 0xFFFFFFFF ^^^ x

/-- Store into a `u8` object. -/
def toU8 (x : Nat) : Nat := x % 256

/-! ## Register map -/

/-- The table `pcm179x_reg_defaults` (pcm179x.c lines 65-75). -/
def pcm179x_reg_defaults : List (Nat × Nat) :=
  [ (0x10, 0xff), (0x11, 0xff), (0x12, 0x50), (0x13, 0x00), (0x14, 0x00),
    (0x15, 0x01), (0x16, 0x00), (0x17, 0x00), (0x20, 0x00) ]

/-- The function `pcm179x_accessible_reg`. -/
def pcm179x_accessible_reg (reg : Nat) : Bool :=
  (decide (reg ≥ 0x10) && decide (reg ≤ 0x17)) || decide (reg = 0x20)

/-- The function `pcm179x_writeable_reg`. -/
def pcm179x_writeable_reg (reg : Nat) : Bool :=
  let accessible := pcm179x_accessible_reg reg
  accessible && decide (reg ≠ 0x16) && decide (reg ≠ 0x17)

/-- One call of `regmap_update_bits` as it was issued: register, mask,
value, and the `int` the call returned (`0` or a negative errno). -/
structure RegUpdate where
  reg : Nat
  mask : Nat
  val : Nat
  ret : Int
deriving DecidableEq, Repr

/-- The register map handle `priv->regmap` together with the device
behind it: the 8-bit register file, the outcome the bus gives to the
`k`-th update call (`errno k = 0` is success, `errno k = e > 0` makes the
call return `-e`), and the updates issued so far, oldest first. -/
structure Regmap where
  regs : Nat → Nat
  errno : Nat → Nat
  log : List RegUpdate

/-- Modelled from the spec: `regmap_update_bits` is a function of the
kernel register-map layer, absent from the driver sources. Each register
update has the meaning `new = (old AND NOT mask) OR (val AND mask)`; the
value is stored in `val_bits = 8` bits (`pcm179x_regmap_config`). A call
that fails returns the negative error code and leaves the register
as it was. -/
def regmap_update_bits (map : Regmap) (reg mask val : Nat) : Int × Regmap :=
  let e := map.errno map.log.length
  let ret : Int := -(e : Int)
  let regs : Nat → Nat :=
    if e = 0 then
      fun a => if a = reg then toU8 ((map.regs reg &&& not32 mask) ||| (val &&& mask))
               else map.regs a
    else map.regs
  (ret, { map with regs := regs, log := map.log ++ [⟨reg, mask, val, ret⟩] })

/-! ## Session state -/

/-- The record `struct pcm179x_private` (pcm179x.c lines 97-105), without
the register map pointer, which is passed alongside. -/
structure pcm179x_private where
  format : Nat
  rate : Nat
  dsd_mode : Nat
  is_mute : Nat
  dacmax_register : Nat
  codec_model : Nat
deriving DecidableEq, Repr

/-- The fields of `struct snd_pcm_hw_params` the driver reads, through
`params_rate`, `params_format` and `params_width`. -/
structure snd_pcm_hw_params where
  rate : Nat
  format : Int
  width : Int
deriving DecidableEq, Repr

/-- The function `pcm179x_set_dai_fmt`. -/
def pcm179x_set_dai_fmt (priv : pcm179x_private) (format : Nat) : Int × pcm179x_private :=
  (0, { priv with format := format })

/-! ## pcm179x_hw_params -/

/-- The first `switch` of `pcm179x_hw_params` (lines 182-214), on the
rate, starting from `val = 0`: `some val` when control reaches the end
of the switch, `none` for `return -EINVAL`. The case `352800` falls
through into the case `705600`. -/
def hw_params_rate_switch (rate : Nat) (format : Int) : Option Nat :=
  let val : Nat := 0
  if rate = 44100 then some val
  else if rate = 48000 then some (val ||| CLK0)
  else if rate = 88200 then some (val ||| CLK1)
  else if rate = 96000 then some (val ||| (CLK1 ||| CLK0))
  else if rate = 176400 then some (val ||| (CLK2 ||| CLK1))
  else if rate = 192000 then some (val ||| (CLK2 ||| CLK0 ||| CLK1))
  else if rate = 352800 then
    let val := val ||| CLK2
    let val := val ||| CLK1
    if format ≠ SNDRV_PCM_FORMAT_DSD_U16_LE then none
    else some (val ||| W32)
  else if rate = 705600 then
    let val := val ||| CLK1
    if format ≠ SNDRV_PCM_FORMAT_DSD_U16_LE then none
    else some (val ||| W32)
  else none

/-- The second `switch` of `pcm179x_hw_params` (lines 216-226), on the
sample format; it has no `default` case. -/
def hw_params_format_switch (format : Int) (val : Nat) : Nat :=
  if format = SNDRV_PCM_FORMAT_DSD_U16_LE then val ||| DSD_EN
  else if format = SNDRV_PCM_FORMAT_S16_LE then val
  else if format = SNDRV_PCM_FORMAT_S24_LE ∨ format = SNDRV_PCM_FORMAT_S32_LE then val ||| W32
  else val

/-- The third `switch` of `pcm179x_hw_params` (lines 235-269), on the DAI
format and the word width: `some val` for the format-select code,
`none` for `return -EINVAL`. -/
def hw_params_dai_switch (daifmt : Nat) (width : Int) : Option Nat :=
  if daifmt = SND_SOC_DAIFMT_RIGHT_J then
    if width = 32 then some 1
    else if width = 24 then some 2
    else if width = 16 then some 0
    else none
  else if daifmt = SND_SOC_DAIFMT_I2S then
    if width = 32 then some 4
    else if width = 24 then some 5
    else if width = 16 then some 4
    else none
  else none

/-- The function `pcm179x_hw_params` (lines 171-299). The result is the
returned `int`, the session record and the register map after the call.
`ret` is an `unsigned int`: every result of `regmap_update_bits` is
converted with `toU32` before the test `ret < 0`. -/
def pcm179x_hw_params (priv : pcm179x_private) (map : Regmap) (params : snd_pcm_hw_params) :
    Int × pcm179x_private × Regmap :=
  let dsd : Nat := 0
  let mask : Nat := PCM179X_FMT_MASK ||| PCM179X_ATLD_ENABLE
  let priv := { priv with rate := params.rate }
  match hw_params_rate_switch priv.rate params.format with
  | none => (-EINVAL, priv, map)
  | some val =>
    let val := hw_params_format_switch params.format val
    let priv := { priv with
      dacmax_register := toU8 (priv.dacmax_register &&& (SPDIF_IN ||| SPDIF_SEL)) }
    let priv := { priv with dacmax_register := toU8 (priv.dacmax_register ||| val) }
    let r := regmap_update_bits map DACMAX_CLOCK 0xff priv.dacmax_register
    let ret : Nat := toU32 r.1
    let map := r.2
    if ret < 0 then (toS32 ret, priv, map)
    else
      match hw_params_dai_switch (priv.format &&& SND_SOC_DAIFMT_FORMAT_MASK) params.width with
      | none => (-EINVAL, priv, map)
      | some val =>
        let val := (val <<< PCM179X_FMT_SHIFT) ||| PCM179X_ATLD_ENABLE
        let mask := mask ||| PCM179X_DSD_FILTER 3
        let isDsd : Bool := decide (params.format = SNDRV_PCM_FORMAT_DSD_U16_LE)
        let dsd := if isDsd then PCM179X_DSD_ENABLE else dsd
        let val := if isDsd then PCM179X_DSD_FILTER 2 else val
        let priv := { priv with dsd_mode := if isDsd then 1 else 0 }
        let r := regmap_update_bits map PCM179X_FMT_CONTROL mask val
        let ret : Nat := toU32 r.1
        let map := r.2
        if ret < 0 then (toS32 ret, priv, map)
        else
          let r := regmap_update_bits map PCM179X_CONF_CONTROL PCM179X_DSD_ENABLE dsd
          let ret : Nat := toU32 r.1
          let map := r.2
          if ret < 0 then (toS32 ret, priv, map)
          else (0, priv, map)

/-! ## pcm179x_digital_mute -/

/-- The tail of `pcm179x_digital_mute` (lines 163-168): the soft-mute
update with `!!mute`, reached with or without the preceding DSD update. -/
def digital_mute_soft (priv : pcm179x_private) (map : Regmap) (mute : Int) :
    Int × pcm179x_private × Regmap :=
  let r := regmap_update_bits map PCM179X_SOFT_MUTE PCM179X_MUTE_MASK
    (if mute ≠ 0 then 1 else 0)
  if r.1 < 0 then (r.1, priv, r.2)
  else (0, priv, r.2)

/-- The function `pcm179x_digital_mute` (lines 141-169); here `ret` is an
`int`. -/
def pcm179x_digital_mute (priv : pcm179x_private) (map : Regmap) (mute : Int) :
    Int × pcm179x_private × Regmap :=
  let spdif_enable : Bool := decide (priv.dacmax_register &&& SPDIF_IN ≠ 0)
  let priv := { priv with is_mute := toU32 mute }
  if spdif_enable ∧ mute ≠ 0 then (0, priv, map)
  else if priv.dsd_mode ≠ 0 ∧ mute ≠ 0 then
    let r := regmap_update_bits map PCM179X_CONF_CONTROL PCM179X_DSD_ENABLE 0
    if r.1 < 0 then (r.1, priv, r.2)
    else digital_mute_soft priv r.2 mute
  else digital_mute_soft priv map mute

/-! ## The SPDIF controls -/

/-- The function `spdif_get_input`: the value stored in
`ucontrol->value.integer.value[0]`. -/
def spdif_get_input (priv : pcm179x_private) : Int :=
  if priv.dacmax_register &&& SPDIF_SEL ≠ 0 then 1 else 0

/-- The function `spdif_put_input` (lines 318-334); `value` is
`ucontrol->value.integer.value[0]`. -/
def spdif_put_input (priv : pcm179x_private) (value : Int) : Int × pcm179x_private :=
  let saved_value : Int := if priv.dacmax_register &&& SPDIF_SEL ≠ 0 then 1 else 0
  if saved_value = value then (0, priv)
  else
    let priv :=
      if value ≠ 0 then { priv with dacmax_register := toU8 (priv.dacmax_register ||| SPDIF_SEL) }
      else { priv with dacmax_register := toU8 (priv.dacmax_register &&& not32 SPDIF_SEL) }
    (1, priv)

/-- The function `spdif_switch_get`. -/
def spdif_switch_get (priv : pcm179x_private) : Int :=
  if priv.dacmax_register &&& SPDIF_IN ≠ 0 then 1 else 0

/-- The function `spdif_switch_put` (lines 347-372). The results of its
three `regmap_update_bits` calls are discarded. -/
def spdif_switch_put (priv : pcm179x_private) (map : Regmap) (value : Int) :
    Int × pcm179x_private × Regmap :=
  let saved_value : Nat := if priv.dacmax_register &&& SPDIF_IN ≠ 0 then 1 else 0
  if (saved_value : Int) = value then (0, priv, map)
  else
    let priv :=
      if value ≠ 0 then { priv with dacmax_register := toU8 (priv.dacmax_register ||| SPDIF_IN) }
      else { priv with dacmax_register := toU8 (priv.dacmax_register &&& not32 SPDIF_IN) }
    let map :=
      if priv.dsd_mode ≠ 0 then
        (regmap_update_bits map PCM179X_CONF_CONTROL PCM179X_DSD_ENABLE
          (if value = 0 then 1 else 0)).2
      else map
    let map := (regmap_update_bits map DACMAX_CLOCK 0xff priv.dacmax_register).2
    let map := (regmap_update_bits map PCM179X_SOFT_MUTE PCM179X_MUTE_MASK
      (priv.is_mute &&& (if saved_value = 0 then 1 else 0))).2
    (1, priv, map)

/-! ## Binding and operation sequences -/

/-- The session record after `pcm179x_common_init` (lines 447-475):
`devm_kzalloc` zeroes it, then `codec_model` (default `PCM1795 = 2`) and
`is_mute = 1` are stored. -/
def pcm179x_common_init : pcm179x_private :=
  { format := 0, rate := 0, dsd_mode := 0, is_mute := 1, dacmax_register := 0,
    codec_model := 2 }

/-- Power-on value of a register: its entry in `pcm179x_reg_defaults`,
`0` when it has none. -/
def default_value (reg : Nat) : Nat :=
  match pcm179x_reg_defaults.find? (fun e => e.1 == reg) with
  | some e => e.2
  | none => 0

/-- The register map at binding time, with `errno` as the outcome of
each future update call. -/
def regmap_init (errno : Nat → Nat) : Regmap :=
  { regs := default_value, errno := errno, log := [] }


/-! ## Observations on a call -/

/-- The updates issued between two states of the register map: what the
later log holds beyond the earlier one. -/
def issued (before after : Regmap) : List RegUpdate :=
  after.log.drop before.log.length

/-- The values a list of updates presents to the clock register
`DACMAX_CLOCK`, in order: `val AND mask` of each update of register 0x20. -/
def clock_values (l : List RegUpdate) : List Nat :=
  (l.filter (fun u => u.reg = DACMAX_CLOCK)).map (fun u => u.val &&& u.mask)

/-- Modelled from the spec: the simulated register file of the round-trip
test, absent from the driver sources. A write to an address that
`pcm179x_writeable_reg` refuses fails ("a write to a non-writable or
non-existent address fails with InvalidRegister"); an accepted write
stores the value in the 8 bits of the register. -/
def regfile_write (regs : Nat → Nat) (addr val : Nat) : Option (Nat → Nat) :=
  if pcm179x_writeable_reg addr then
    some (fun a => if a = addr then toU8 val else regs a)
  else none

/-- Modelled from the spec: reading the simulated register file back; an
address that `pcm179x_accessible_reg` (the `readable_reg` callback of
`pcm179x_regmap_config`) refuses cannot be read. -/
def regfile_read (regs : Nat → Nat) (addr : Nat) : Option Nat :=
  if pcm179x_accessible_reg addr then some (regs addr) else none

/-- The rate table as the specification documents it for the rates up to
192000 (44100 gives no bit, 48000 gives CLK0, 88200 gives CLK1, 96000
gives CLK0 and CLK1, 176400 gives CLK1 and CLK2, 192000 gives all three);
it is written from the specification, to be compared with what
`hw_params_rate_switch` computes. -/
def documented_rate_bits (rate : Nat) : Nat :=
  if rate = 44100 then 0
  else if rate = 48000 then CLK0
  else if rate = 88200 then CLK1
  else if rate = 96000 then CLK0 ||| CLK1
  else if rate = 176400 then CLK1 ||| CLK2
  else if rate = 192000 then CLK0 ||| CLK1 ||| CLK2
  else 0

/-- Register, mask and value of each update of a list, in order, without
the results the bus gave. -/
def update_triples (l : List RegUpdate) : List (Nat × Nat × Nat) :=
  l.map (fun u => (u.reg, u.mask, u.val))

/-- The value `pcm179x_hw_params` leaves in `dacmax_register` (lines
228-229) when the rate switch ended with `val = v`. -/
def hw_params_dacmax (priv : pcm179x_private) (params : snd_pcm_hw_params) (v : Nat) : Nat :=
  toU8 (toU8 (priv.dacmax_register &&& (SPDIF_IN ||| SPDIF_SEL))
    ||| hw_params_format_switch params.format v)

/-- The session record `pcm179x_hw_params` leaves when it runs to its
end: `rate`, `dacmax_register` and `dsd_mode` are assigned (lines 181,
228-229, 279 and 282). -/
def hw_params_committed (priv : pcm179x_private) (params : snd_pcm_hw_params) (v : Nat) :
    pcm179x_private :=
  { priv with
    rate := params.rate
    dacmax_register := hw_params_dacmax priv params v
    dsd_mode := if params.format = SNDRV_PCM_FORMAT_DSD_U16_LE then 1 else 0 }

/-- The value `spdif_switch_put` leaves in `dacmax_register` (lines
357-360) when the requested value differs from the stored flag. -/
def switch_put_dacmax (priv : pcm179x_private) (value : Int) : Nat :=
  if value ≠ 0 then toU8 (priv.dacmax_register ||| SPDIF_IN)
  else toU8 (priv.dacmax_register &&& not32 SPDIF_IN)

/-- The value `spdif_put_input` leaves in `dacmax_register` (lines
328-331) when the requested value differs from the stored flag. -/
def put_input_dacmax (priv : pcm179x_private) (value : Int) : Nat :=
  if value ≠ 0 then toU8 (priv.dacmax_register ||| SPDIF_SEL)
  else toU8 (priv.dacmax_register &&& not32 SPDIF_SEL)

/-- The last value successfully written to the clock register
`DACMAX_CLOCK` according to a log of updates: `val AND mask` of the
latest update of register 0x20 that returned 0, and the power-on value
of the register when there is none. -/
def last_clock_written (log : List RegUpdate) : Nat :=
  log.foldl
    (fun acc u => if u.reg = DACMAX_CLOCK ∧ u.ret = 0 then u.val &&& u.mask else acc)
    (default_value DACMAX_CLOCK)

/-- One call into the driver, with its arguments. -/
inductive Op where
  | set_dai_fmt (format : Nat)
  | hw_params (params : snd_pcm_hw_params)
  | digital_mute (mute : Int)
  | switch_put (value : Int)
  | put_input (value : Int)
deriving DecidableEq, Repr

/-- Effect of one call on the session record and the register map. -/
def step (st : pcm179x_private × Regmap) : Op → pcm179x_private × Regmap
  | .set_dai_fmt f => ((pcm179x_set_dai_fmt st.1 f).2, st.2)
  | .hw_params p => (pcm179x_hw_params st.1 st.2 p).2
  | .digital_mute v => (pcm179x_digital_mute st.1 st.2 v).2
  | .switch_put v => (spdif_switch_put st.1 st.2 v).2
  | .put_input v => ((spdif_put_input st.1 v).2, st.2)

/-- Effect of a sequence of calls, first call first. -/
def run (st : pcm179x_private × Regmap) (ops : List Op) : pcm179x_private × Regmap :=
  ops.foldl step st

/-- The relation between the cache and the clock register that every
call preserves on a bus without failures: `dacmax_register` fits its
eight bits and agrees with the last value written to register 0x20 on
every bit but `SPDIF_SEL`. -/
def clock_cache_inv (st : pcm179x_private × Regmap) : Prop :=
  (∀ k, st.2.errno k = 0) ∧ st.1.dacmax_register < 256 ∧
  st.1.dacmax_register &&& not32 SPDIF_SEL =
    last_clock_written st.2.log &&& not32 SPDIF_SEL

/-! ## The board driver (sound/soc/bcm/giotto.c)

`giotto.c` defines `CLK2`, `CLK1`, `CLK0`, `W32` and `DSD_EN` again (lines
37-41) with the values they have in `pcm179x.c`; the constants above
stand for both. -/

/-- The first `switch` of `giotto_ext_clock_update` (lines 63-76), on the
sample format, starting from `mask`: `some mask` when control reaches the
end of the switch, `none` for the `default` case, which returns -EINVAL.
`mask` is a `u8`. -/
def giotto_format_switch (format : Int) (mask : Nat) : Option Nat :=
  if format = SNDRV_PCM_FORMAT_DSD_U16_LE then some (toU8 (mask ||| DSD_EN))
  else if format = SNDRV_PCM_FORMAT_S16_LE then some mask
  else if format = SNDRV_PCM_FORMAT_S24_LE ∨ format = SNDRV_PCM_FORMAT_S32_LE then
    some (toU8 (mask ||| W32))
  else none

/-- The second `switch` of `giotto_ext_clock_update` (lines 78-107), on
the rate: `some mask` when control reaches the end of the switch, `none`
for `return -EINVAL`. There is no case for 705600. -/
def giotto_rate_switch (rate : Nat) (format : Int) (mask : Nat) : Option Nat :=
  if rate = 44100 then some mask
  else if rate = 48000 then some (toU8 (mask ||| CLK0))
  else if rate = 88200 then some (toU8 (mask ||| CLK1))
  else if rate = 96000 then some (toU8 (mask ||| (CLK1 ||| CLK0)))
  else if rate = 176400 then some (toU8 (mask ||| (CLK2 ||| CLK1)))
  else if rate = 192000 then some (toU8 (mask ||| (CLK2 ||| CLK0 ||| CLK1)))
  else if rate = 352800 then
    if format ≠ SNDRV_PCM_FORMAT_DSD_U16_LE then none
    else
      let mask := toU8 (mask ||| (CLK2 ||| CLK1))
      some (toU8 (mask ||| W32))
  else none

/-- The function `giotto_ext_clock_update` (lines 54-113): the returned
`int`, and the value of the local `mask` when the function runs to its
end (`none` when it returns -EINVAL on the way). -/
def giotto_ext_clock_update (params : snd_pcm_hw_params) : Int × Option Nat :=
  let mask : Nat := 0
  match giotto_format_switch params.format mask with
  | none => (-EINVAL, none)
  | some mask =>
    match giotto_rate_switch params.rate params.format mask with
    | none => (-EINVAL, none)
    | some mask => (0, some mask)

/-! ## The potentiometer driver (drivers/iio/potentiometer/ds1807.c) -/

abbrev DS1807_MAX_STEP : Int := 64
abbrev DS1807_MUTE : Int := -90

/-- The macro `DS1807_WRITE(chan)`, `(0xa8 | ((chan) + 1))`. -/
abbrev DS1807_WRITE (chan : Nat) : Nat := 0xa8 ||| (chan + 1)

/-- The function `ds1807_write_raw` (lines 69-88). The channel-info code
`IIO_CHAN_INFO_HARDWAREGAIN` of the IIO headers is a parameter, and so is
`bus_ret`, what `i2c_smbus_write_byte_data` returns. The result is the
returned `int` and, when the transfer is issued, its `u8` command and
`u8` value. -/
def ds1807_write_raw (IIO_CHAN_INFO_HARDWAREGAIN : Int) (bus_ret : Int) (pot : Nat)
    (val val2 mask : Int) : Int × Option (Nat × Nat) :=
  if mask = IIO_CHAN_INFO_HARDWAREGAIN then
    if val2 ≠ 0 ∨ val < DS1807_MUTE ∨ val > 0 then (-EINVAL, none)
    else
      let val := if val = DS1807_MUTE then DS1807_MAX_STEP else -val
      (bus_ret, some (toU8 (DS1807_WRITE pot), toU8 (toU32 val)))
  else (-EINVAL, none)

/-- The function `ds1807_read_raw` (lines 41-67). The constants
`IIO_CHAN_INFO_HARDWAREGAIN` and `IIO_VAL_INT_PLUS_MICRO_DB` of the IIO
headers are parameters; `recv_ret` is what `i2c_master_recv` returns and
`result` the bytes it stored. The result is the returned `int` and, when
they are assigned, `*val` and `*val2`. -/
def ds1807_read_raw (IIO_CHAN_INFO_HARDWAREGAIN IIO_VAL_INT_PLUS_MICRO_DB : Int)
    (recv_ret : Int) (result : List Nat) (pot : Nat) (mask : Int) :
    Int × Option (Int × Int) :=
  if mask = IIO_CHAN_INFO_HARDWAREGAIN then
    if recv_ret < 0 then (recv_ret, none)
    else
      let val2 : Int := 0
      let val : Int :=
        if (result.getD pot 0 : Int) = DS1807_MAX_STEP then DS1807_MUTE
        else -(result.getD pot 0 : Int)
      (IIO_VAL_INT_PLUS_MICRO_DB, some (val, val2))
  else (-EINVAL, none)

/-! ## Bit arithmetic -/

theorem and_eq_mod_and (d m k : Nat) (h : m < 2 ^ k) : d &&& m = (d % 2 ^ k) &&& m := by
  rw [← Nat.and_pow_two_sub_one_eq_mod d k, Nat.and_assoc]
  congr 1
  rw [Nat.and_comm, Nat.and_pow_two_sub_one_eq_mod, Nat.mod_eq_of_lt h]

set_option maxRecDepth 100000 in
theorem and_0x60_lt :
    ∀ x < 128, x &&& 0x60 = 0 ∨ x &&& 0x60 = 0x20 ∨ x &&& 0x60 = 0x40 ∨ x &&& 0x60 = 0x60 := by
  decide

theorem and_0x60_cases (d : Nat) :
    d &&& 0x60 = 0 ∨ d &&& 0x60 = 0x20 ∨ d &&& 0x60 = 0x40 ∨ d &&& 0x60 = 0x60 := by
  rw [and_eq_mod_and d 0x60 7 (by decide)]
  exact and_0x60_lt _ (Nat.mod_lt _ (by decide))

theorem and_spdif_in_eq (d : Nat) : d &&& SPDIF_IN = (d &&& 0x60) &&& 0x20 := by
  rw [Nat.and_assoc]; rfl

theorem and_spdif_sel_eq (d : Nat) : d &&& SPDIF_SEL = (d &&& 0x60) &&& 0x40 := by
  rw [Nat.and_assoc]; rfl

/-! ## What pcm179x_hw_params does on each path -/

theorem hw_params_rate_rejected (s : pcm179x_private) (m : Regmap) (p : snd_pcm_hw_params)
    (h : hw_params_rate_switch p.rate p.format = none) :
    pcm179x_hw_params s m p = (-EINVAL, { s with rate := p.rate }, m) := by
  simp [pcm179x_hw_params, h]

theorem hw_params_dai_rejected (s : pcm179x_private) (m : Regmap) (p : snd_pcm_hw_params)
    (v : Nat) (h : hw_params_rate_switch p.rate p.format = some v)
    (hd : hw_params_dai_switch (s.format &&& SND_SOC_DAIFMT_FORMAT_MASK) p.width = none) :
    pcm179x_hw_params s m p =
      (-EINVAL, { s with rate := p.rate, dacmax_register := hw_params_dacmax s p v },
        (regmap_update_bits m DACMAX_CLOCK 0xff (hw_params_dacmax s p v)).2) := by
  simp [pcm179x_hw_params, h, hd, hw_params_dacmax]

theorem hw_params_accepted (s : pcm179x_private) (m : Regmap) (p : snd_pcm_hw_params)
    (v c : Nat) (h : hw_params_rate_switch p.rate p.format = some v)
    (hd : hw_params_dai_switch (s.format &&& SND_SOC_DAIFMT_FORMAT_MASK) p.width = some c) :
    pcm179x_hw_params s m p =
      ((0 : Int), hw_params_committed s p v,
        (regmap_update_bits
          (regmap_update_bits
            (regmap_update_bits m DACMAX_CLOCK 0xff (hw_params_dacmax s p v)).2
            PCM179X_FMT_CONTROL (PCM179X_FMT_MASK ||| PCM179X_ATLD_ENABLE ||| PCM179X_DSD_FILTER 3)
            (if p.format = SNDRV_PCM_FORMAT_DSD_U16_LE then PCM179X_DSD_FILTER 2
             else (c <<< PCM179X_FMT_SHIFT) ||| PCM179X_ATLD_ENABLE)).2
          PCM179X_CONF_CONTROL PCM179X_DSD_ENABLE
          (if p.format = SNDRV_PCM_FORMAT_DSD_U16_LE then PCM179X_DSD_ENABLE else 0)).2) := by
  by_cases hf : p.format = SNDRV_PCM_FORMAT_DSD_U16_LE
  · simp only [pcm179x_hw_params, h, hd, hw_params_dacmax, hw_params_committed]
    simp [hf]
  · simp only [pcm179x_hw_params, h, hd, hw_params_dacmax, hw_params_committed]
    simp [hf]

theorem issued_update (m : Regmap) (reg mask val : Nat) :
    (regmap_update_bits m reg mask val).2.log =
      m.log ++ [⟨reg, mask, val, -(m.errno m.log.length : Int)⟩] := by
  simp [regmap_update_bits]

theorem update_errno (m : Regmap) (reg mask val : Nat) :
    (regmap_update_bits m reg mask val).2.errno = m.errno := by
  simp [regmap_update_bits]

theorem hw_params_issued (s : pcm179x_private) (m : Regmap) (p : snd_pcm_hw_params) :
    issued m (pcm179x_hw_params s m p).2.2 =
      match hw_params_rate_switch p.rate p.format with
      | none => []
      | some v =>
        ⟨DACMAX_CLOCK, 0xff, hw_params_dacmax s p v, -(m.errno m.log.length : Int)⟩ ::
        match hw_params_dai_switch (s.format &&& SND_SOC_DAIFMT_FORMAT_MASK) p.width with
        | none => []
        | some c =>
          [⟨PCM179X_FMT_CONTROL, PCM179X_FMT_MASK ||| PCM179X_ATLD_ENABLE ||| PCM179X_DSD_FILTER 3,
              if p.format = SNDRV_PCM_FORMAT_DSD_U16_LE then PCM179X_DSD_FILTER 2
              else (c <<< PCM179X_FMT_SHIFT) ||| PCM179X_ATLD_ENABLE,
              -(m.errno (m.log.length + 1) : Int)⟩,
           ⟨PCM179X_CONF_CONTROL, PCM179X_DSD_ENABLE,
              if p.format = SNDRV_PCM_FORMAT_DSD_U16_LE then PCM179X_DSD_ENABLE else 0,
              -(m.errno (m.log.length + 2) : Int)⟩] := by
  cases h : hw_params_rate_switch p.rate p.format with
  | none => simp [hw_params_rate_rejected s m p h, issued]
  | some v =>
    cases hd : hw_params_dai_switch (s.format &&& SND_SOC_DAIFMT_FORMAT_MASK) p.width with
    | none => simp [hw_params_dai_rejected s m p v h hd, issued, issued_update]
    | some c =>
      simp [hw_params_accepted s m p v c h hd, issued, issued_update, update_errno]


theorem hw_params_clock_values (s : pcm179x_private) (m : Regmap) (p : snd_pcm_hw_params)
    (v : Nat) (h : hw_params_rate_switch p.rate p.format = some v) :
    clock_values (issued m (pcm179x_hw_params s m p).2.2) = [hw_params_dacmax s p v &&& 0xff] := by
  rw [hw_params_issued, h]
  cases hw_params_dai_switch (s.format &&& SND_SOC_DAIFMT_FORMAT_MASK) p.width <;>
    simp [clock_values]

theorem spdif_flags_clear (d : Nat) (hin : d &&& SPDIF_IN = 0) (hsel : d &&& SPDIF_SEL = 0) :
    d &&& (SPDIF_IN ||| SPDIF_SEL) = 0 := by
  rw [Nat.and_or_distrib_left, hin, hsel]; rfl

/-! ## C1 -/

/-- C1: for every call of `pcm179x_hw_params` with sample format S16_LE
and both SPDIF flags clear, the one value written to the clock register
0x20 is the documented bit set of the rate (44100 gives 0x00, 48000 gives
CLK0 = 0x04, 88200 gives CLK1 = 0x02, 96000 gives 0x06, 176400 gives
0x03, 192000 gives 0x07), and every rate outside the eight table rates
makes the call return -EINVAL. The protocol and the width play no part. -/
theorem hw_params_s16_clock_bits (s : pcm179x_private) (m : Regmap) (p : snd_pcm_hw_params)
    (hfmt : p.format = SNDRV_PCM_FORMAT_S16_LE)
    (hin : s.dacmax_register &&& SPDIF_IN = 0) (hsel : s.dacmax_register &&& SPDIF_SEL = 0) :
    (p.rate = 44100 → clock_values (issued m (pcm179x_hw_params s m p).2.2) = [0x00]) ∧
    (p.rate = 48000 → clock_values (issued m (pcm179x_hw_params s m p).2.2) = [0x04]) ∧
    (p.rate = 88200 → clock_values (issued m (pcm179x_hw_params s m p).2.2) = [0x02]) ∧
    (p.rate = 96000 → clock_values (issued m (pcm179x_hw_params s m p).2.2) = [0x06]) ∧
    (p.rate = 176400 → clock_values (issued m (pcm179x_hw_params s m p).2.2) = [0x03]) ∧
    (p.rate = 192000 → clock_values (issued m (pcm179x_hw_params s m p).2.2) = [0x07]) ∧
    (p.rate ∉ [44100, 48000, 88200, 96000, 176400, 192000, 352800, 705600] →
      (pcm179x_hw_params s m p).1 = -EINVAL) := by
  have hd : ∀ v, hw_params_dacmax s p v = toU8 v := by
    intro v
    simp [hw_params_dacmax, spdif_flags_clear _ hin hsel, hfmt, hw_params_format_switch, toU8]
  refine ⟨?_, ?_, ?_, ?_, ?_, ?_, ?_⟩
  · intro hr
    rw [hw_params_clock_values s m p 0 (by rw [hr]; rfl), hd]; rfl
  · intro hr
    rw [hw_params_clock_values s m p 4 (by rw [hr]; rfl), hd]; rfl
  · intro hr
    rw [hw_params_clock_values s m p 2 (by rw [hr]; rfl), hd]; rfl
  · intro hr
    rw [hw_params_clock_values s m p 6 (by rw [hr]; rfl), hd]; rfl
  · intro hr
    rw [hw_params_clock_values s m p 3 (by rw [hr]; rfl), hd]; rfl
  · intro hr
    rw [hw_params_clock_values s m p 7 (by rw [hr]; rfl), hd]; rfl
  · intro hr
    simp only [List.mem_cons, List.mem_singleton, not_or, List.mem_nil_iff, or_false] at hr
    obtain ⟨h1, h2, h3, h4, h5, h6, h7, h8⟩ := hr
    rw [hw_params_rate_rejected s m p (by simp [hw_params_rate_switch, h1, h2, h3, h4, h5, h6, h7, h8])]

/-- C1 at a concrete call: 48000 Hz, S16_LE, I2S with 16-bit words, from
the state at binding time. -/
theorem hw_params_s16_clock_bits_witness :
    clock_values (issued (regmap_init (fun _ => 0))
      (pcm179x_hw_params { pcm179x_common_init with format := SND_SOC_DAIFMT_I2S }
        (regmap_init (fun _ => 0)) ⟨48000, SNDRV_PCM_FORMAT_S16_LE, 16⟩).2.2) = [0x04] :=
  (hw_params_s16_clock_bits { pcm179x_common_init with format := SND_SOC_DAIFMT_I2S }
    (regmap_init (fun _ => 0)) ⟨48000, SNDRV_PCM_FORMAT_S16_LE, 16⟩ rfl (by decide) (by decide)).2.1 rfl

/-! ## C2 -/

/-- C2, as stated, fails twice. A rate outside the table (12345 Hz) is
rejected with -EINVAL, yet `rate` has already been overwritten; and with
no DAI format set the call for 48000 Hz S16_LE is rejected with -EINVAL
after the clock register has been updated and `dacmax_register` changed. -/
theorem hw_params_rejection_not_side_effect_free :
    ((pcm179x_hw_params pcm179x_common_init (regmap_init (fun _ => 0))
        ⟨12345, SNDRV_PCM_FORMAT_S16_LE, 16⟩).1 = -EINVAL ∧
      (pcm179x_hw_params pcm179x_common_init (regmap_init (fun _ => 0))
        ⟨12345, SNDRV_PCM_FORMAT_S16_LE, 16⟩).2.1.rate ≠ pcm179x_common_init.rate) ∧
    ((pcm179x_hw_params pcm179x_common_init (regmap_init (fun _ => 0))
        ⟨48000, SNDRV_PCM_FORMAT_S16_LE, 16⟩).1 = -EINVAL ∧
      issued (regmap_init (fun _ => 0))
        (pcm179x_hw_params pcm179x_common_init (regmap_init (fun _ => 0))
          ⟨48000, SNDRV_PCM_FORMAT_S16_LE, 16⟩).2.2 = [⟨0x20, 0xff, 0x04, 0⟩] ∧
      (pcm179x_hw_params pcm179x_common_init (regmap_init (fun _ => 0))
        ⟨48000, SNDRV_PCM_FORMAT_S16_LE, 16⟩).2.1.dacmax_register ≠
        pcm179x_common_init.dacmax_register) := by
  refine ⟨⟨?_, ?_⟩, ?_, ?_, ?_⟩
  · rfl
  · decide
  · rfl
  · rfl
  · decide

/-- C2, amended: a rejection at the rate stage (rate outside the table,
or 352800/705600 with a format other than DSD) returns -EINVAL with no
register update issued and `dsd_mode` and `dacmax_register` untouched,
while `rate` already holds the requested rate; a rejection of the
(protocol, width) pair, reached after a successful clock update, returns
-EINVAL with exactly that one update of register 0x20 issued, `rate` and
`dacmax_register` holding the new values and `dsd_mode` untouched. -/
theorem hw_params_rejection_effects (s : pcm179x_private) (m : Regmap) (p : snd_pcm_hw_params)
    (hrej : hw_params_rate_switch p.rate p.format = none ∨
      (hw_params_dai_switch (s.format &&& SND_SOC_DAIFMT_FORMAT_MASK) p.width = none ∧
        m.errno m.log.length = 0)) :
    (pcm179x_hw_params s m p).1 = -EINVAL ∧
    (pcm179x_hw_params s m p).2.1.rate = p.rate ∧
    (pcm179x_hw_params s m p).2.1.dsd_mode = s.dsd_mode ∧
    (hw_params_rate_switch p.rate p.format = none →
      issued m (pcm179x_hw_params s m p).2.2 = [] ∧
      (pcm179x_hw_params s m p).2.1.dacmax_register = s.dacmax_register) ∧
    (∀ v, hw_params_rate_switch p.rate p.format = some v →
      issued m (pcm179x_hw_params s m p).2.2 =
        [⟨DACMAX_CLOCK, 0xff, hw_params_dacmax s p v, 0⟩] ∧
      (pcm179x_hw_params s m p).2.1.dacmax_register = hw_params_dacmax s p v) := by
  cases h : hw_params_rate_switch p.rate p.format with
  | none =>
    have hi := hw_params_issued s m p
    rw [h] at hi
    rw [hi, hw_params_rate_rejected s m p h]
    simp
  | some v =>
    rcases hrej with hrej | ⟨hd, he⟩
    · rw [h] at hrej; cases hrej
    · have hi := hw_params_issued s m p
      rw [h, hd] at hi
      rw [hi, hw_params_dai_rejected s m p v h hd]
      simp [he]

/-- The amended C2 at a concrete call: 48000 Hz S16_LE with no DAI format
set, on a bus that accepts every update. -/
theorem hw_params_rejection_effects_witness :
    (pcm179x_hw_params pcm179x_common_init (regmap_init (fun _ => 0))
      ⟨48000, SNDRV_PCM_FORMAT_S16_LE, 16⟩).1 = -EINVAL ∧
    (pcm179x_hw_params pcm179x_common_init (regmap_init (fun _ => 0))
      ⟨48000, SNDRV_PCM_FORMAT_S16_LE, 16⟩).2.1.rate = 48000 ∧
    (pcm179x_hw_params pcm179x_common_init (regmap_init (fun _ => 0))
      ⟨48000, SNDRV_PCM_FORMAT_S16_LE, 16⟩).2.1.dsd_mode = 0 :=
  have h := hw_params_rejection_effects pcm179x_common_init (regmap_init (fun _ => 0))
    ⟨48000, SNDRV_PCM_FORMAT_S16_LE, 16⟩ (Or.inr ⟨rfl, rfl⟩)
  ⟨h.1, h.2.1, h.2.2.1⟩

/-! ## C3 -/

theorem hw_params_commits (s : pcm179x_private) (m : Regmap)
    (p : snd_pcm_hw_params) (v : Nat)
    (h : hw_params_rate_switch p.rate p.format = some v) :
    (pcm179x_hw_params s m p).2.1.rate = p.rate ∧
    (pcm179x_hw_params s m p).2.1.dacmax_register = hw_params_dacmax s p v := by
  cases hd : hw_params_dai_switch (s.format &&& SND_SOC_DAIFMT_FORMAT_MASK) p.width with
  | none => rw [hw_params_dai_rejected s m p v h hd]; exact ⟨rfl, rfl⟩
  | some c => rw [hw_params_accepted s m p v c h hd]; exact ⟨rfl, rfl⟩

/-- C3, as stated, fails: 48000 Hz S16_LE over I2S with 16-bit words is a
valid configuration, the second update (format control) fails with -5 (`-EIO`),
and after the call `rate` and `dacmax_register` hold the new values, not
the ones from before the call. -/
theorem hw_params_failed_write_keeps_new_state :
    (issued (regmap_init (fun k => if k = 1 then 5 else 0))
      (pcm179x_hw_params { pcm179x_common_init with format := SND_SOC_DAIFMT_I2S }
        (regmap_init (fun k => if k = 1 then 5 else 0))
        ⟨48000, SNDRV_PCM_FORMAT_S16_LE, 16⟩).2.2)[1]? = some ⟨0x12, 0xfc, 0xc0, -5⟩ ∧
    (pcm179x_hw_params { pcm179x_common_init with format := SND_SOC_DAIFMT_I2S }
      (regmap_init (fun k => if k = 1 then 5 else 0))
      ⟨48000, SNDRV_PCM_FORMAT_S16_LE, 16⟩).2.1.rate ≠ pcm179x_common_init.rate ∧
    (pcm179x_hw_params { pcm179x_common_init with format := SND_SOC_DAIFMT_I2S }
      (regmap_init (fun k => if k = 1 then 5 else 0))
      ⟨48000, SNDRV_PCM_FORMAT_S16_LE, 16⟩).2.1.dacmax_register ≠
      pcm179x_common_init.dacmax_register := by
  refine ⟨?_, ?_, ?_⟩
  · rfl
  · decide
  · decide

/-- C3, amended: `rate` and `dacmax_register` are assigned before the
first register update and nothing restores them; after a call that
passed the rate switch, whatever the bus answered to each update and so
also when one of them failed, `rate` is the requested rate and
`dacmax_register` is the old SPDIF bits merged with the new clock bits. -/
theorem hw_params_failed_write_state (s : pcm179x_private) (m : Regmap)
    (p : snd_pcm_hw_params) (v : Nat)
    (h : hw_params_rate_switch p.rate p.format = some v) :
    (pcm179x_hw_params s m p).2.1.rate = p.rate ∧
    (pcm179x_hw_params s m p).2.1.dacmax_register = hw_params_dacmax s p v :=
  hw_params_commits s m p v h

/-- The amended C3 at the call of the counterexample: the second update
fails, `rate` is 48000 and `dacmax_register` is CLK0. -/
theorem hw_params_failed_write_state_witness :
    (∃ u ∈ issued (regmap_init (fun k => if k = 1 then 5 else 0))
      (pcm179x_hw_params { pcm179x_common_init with format := SND_SOC_DAIFMT_I2S }
        (regmap_init (fun k => if k = 1 then 5 else 0))
        ⟨48000, SNDRV_PCM_FORMAT_S16_LE, 16⟩).2.2, u.ret < 0) ∧
    (pcm179x_hw_params { pcm179x_common_init with format := SND_SOC_DAIFMT_I2S }
      (regmap_init (fun k => if k = 1 then 5 else 0))
      ⟨48000, SNDRV_PCM_FORMAT_S16_LE, 16⟩).2.1.rate = 48000 ∧
    (pcm179x_hw_params { pcm179x_common_init with format := SND_SOC_DAIFMT_I2S }
      (regmap_init (fun k => if k = 1 then 5 else 0))
      ⟨48000, SNDRV_PCM_FORMAT_S16_LE, 16⟩).2.1.dacmax_register = 0x04 :=
  ⟨⟨⟨0x12, 0xfc, 0xc0, -5⟩, by decide, by decide⟩,
    hw_params_failed_write_state { pcm179x_common_init with format := SND_SOC_DAIFMT_I2S }
      (regmap_init (fun k => if k = 1 then 5 else 0))
      ⟨48000, SNDRV_PCM_FORMAT_S16_LE, 16⟩ 4 rfl⟩

/-! ## C4 -/

/-- The variable `ret` of `pcm179x_hw_params` is unsigned, so no test
`ret < 0` succeeds: whatever the bus answers, the call returns 0 or
-EINVAL. -/
theorem hw_params_return_values (s : pcm179x_private) (m : Regmap) (p : snd_pcm_hw_params) :
    (pcm179x_hw_params s m p).1 = 0 ∨ (pcm179x_hw_params s m p).1 = -EINVAL := by
  cases h : hw_params_rate_switch p.rate p.format with
  | none => rw [hw_params_rate_rejected s m p h]; exact Or.inr rfl
  | some v =>
    cases hd : hw_params_dai_switch (s.format &&& SND_SOC_DAIFMT_FORMAT_MASK) p.width with
    | none => rw [hw_params_dai_rejected s m p v h hd]; exact Or.inr rfl
    | some c => rw [hw_params_accepted s m p v c h hd]; exact Or.inl rfl

/-- C4 at the failing input: 48000 Hz S16_LE over I2S with 16-bit words,
the first update (clock register) failing with -5 (`-EIO`). The call
returns 0, not -5, and issues the two later updates as well. -/
theorem hw_params_swallows_bus_error :
    (pcm179x_hw_params { pcm179x_common_init with format := SND_SOC_DAIFMT_I2S }
      (regmap_init (fun k => if k = 0 then 5 else 0))
      ⟨48000, SNDRV_PCM_FORMAT_S16_LE, 16⟩).1 = 0 ∧
    issued (regmap_init (fun k => if k = 0 then 5 else 0))
      (pcm179x_hw_params { pcm179x_common_init with format := SND_SOC_DAIFMT_I2S }
        (regmap_init (fun k => if k = 0 then 5 else 0))
        ⟨48000, SNDRV_PCM_FORMAT_S16_LE, 16⟩).2.2 =
      [⟨0x20, 0xff, 0x04, -5⟩, ⟨0x12, 0xfc, 0xc0, 0⟩, ⟨0x14, 0x20, 0x00, 0⟩] := by
  exact ⟨rfl, rfl⟩

/-! ## C5 -/

theorem last_clock_written_append (log l : List RegUpdate) :
    last_clock_written (log ++ l) =
      l.foldl
        (fun acc u => if u.reg = DACMAX_CLOCK ∧ u.ret = 0 then u.val &&& u.mask else acc)
        (last_clock_written log) := by
  simp [last_clock_written, List.foldl_append]

set_option maxRecDepth 100000 in
theorem put_input_bits_lt : ∀ d < 256,
    toU8 (d ||| SPDIF_SEL) &&& not32 SPDIF_SEL = d &&& not32 SPDIF_SEL ∧
    toU8 (d &&& not32 SPDIF_SEL) &&& not32 SPDIF_SEL = d &&& not32 SPDIF_SEL := by
  decide

theorem toU8_lt (x : Nat) : toU8 x < 256 := Nat.mod_lt _ (by decide)

theorem and_0xff_of_lt (x : Nat) (h : x < 256) : x &&& 0xff = x := by
  have := Nat.and_pow_two_sub_one_eq_mod x 8
  rw [show (2 : Nat) ^ 8 - 1 = 0xff from rfl, show (2 : Nat) ^ 8 = 256 from rfl] at this
  rw [this, Nat.mod_eq_of_lt h]

theorem hw_params_dacmax_lt (s : pcm179x_private) (p : snd_pcm_hw_params) (v : Nat) :
    hw_params_dacmax s p v < 256 := toU8_lt _

theorem switch_put_dacmax_lt (s : pcm179x_private) (value : Int) :
    switch_put_dacmax s value < 256 := by
  unfold switch_put_dacmax; split <;> exact toU8_lt _

/-- What `spdif_switch_put` does when the requested value equals the
stored flag: nothing. -/
theorem switch_put_unchanged (s : pcm179x_private) (m : Regmap) (value : Int)
    (h : spdif_switch_get s = value) :
    spdif_switch_put s m value = (0, s, m) := by
  unfold spdif_switch_get at h
  unfold spdif_switch_put
  by_cases hin : s.dacmax_register &&& SPDIF_IN = 0
  · simp [hin] at h ⊢; simp [← h]
  · simp [hin] at h ⊢; simp [← h]

/-- What `spdif_switch_put` does when the requested value differs from
the stored flag. -/
theorem switch_put_changed (s : pcm179x_private) (m : Regmap) (value : Int)
    (h : spdif_switch_get s ≠ value) :
    spdif_switch_put s m value =
      (1, { s with dacmax_register := switch_put_dacmax s value },
        (regmap_update_bits
          (regmap_update_bits
            (if s.dsd_mode ≠ 0 then
              (regmap_update_bits m PCM179X_CONF_CONTROL PCM179X_DSD_ENABLE
                (if value = 0 then 1 else 0)).2
             else m)
            DACMAX_CLOCK 0xff (switch_put_dacmax s value)).2
          PCM179X_SOFT_MUTE PCM179X_MUTE_MASK
          (s.is_mute &&& (if s.dacmax_register &&& SPDIF_IN ≠ 0 then 0 else 1))).2) := by
  unfold spdif_switch_get at h
  unfold spdif_switch_put switch_put_dacmax
  by_cases hin : s.dacmax_register &&& SPDIF_IN = 0 <;> by_cases hv : value = 0
  · simp [hin, hv] at h
  · simp [hin, hv]; intro hc; exact absurd hc.symm hv
  · simp [hin, hv]
  · simp [hin, hv] at h ⊢; exact fun hc => h hc

theorem digital_mute_clock (s : pcm179x_private) (m : Regmap) (mute : Int) :
    (pcm179x_digital_mute s m mute).2.1.dacmax_register = s.dacmax_register ∧
    (pcm179x_digital_mute s m mute).2.2.errno = m.errno ∧
    last_clock_written (pcm179x_digital_mute s m mute).2.2.log = last_clock_written m.log := by
  unfold pcm179x_digital_mute digital_mute_soft
  simp only
  split_ifs <;>
    simp [issued_update, update_errno, last_clock_written_append, PCM179X_CONF_CONTROL,
      PCM179X_SOFT_MUTE, PCM179X_FMT_CONTROL, DACMAX_CLOCK]

theorem clock_cache_inv_init (s : pcm179x_private) (h : s.dacmax_register = 0) :
    clock_cache_inv (s, regmap_init (fun _ => 0)) := by
  refine ⟨fun _ => rfl, ?_, ?_⟩
  · show s.dacmax_register < 256
    omega
  · show s.dacmax_register &&& not32 SPDIF_SEL = _
    rw [h]; rfl

theorem clock_cache_inv_step (st : pcm179x_private × Regmap) (op : Op)
    (h : clock_cache_inv st) : clock_cache_inv (step st op) := by
  obtain ⟨s, m⟩ := st
  obtain ⟨he, hlt, hinv⟩ := h
  simp only at he hlt hinv
  cases op with
  | set_dai_fmt f => exact ⟨he, hlt, hinv⟩
  | hw_params p =>
    show clock_cache_inv (pcm179x_hw_params s m p).2
    cases hr : hw_params_rate_switch p.rate p.format with
    | none => rw [hw_params_rate_rejected s m p hr]; exact ⟨he, hlt, hinv⟩
    | some v =>
      cases hd : hw_params_dai_switch (s.format &&& SND_SOC_DAIFMT_FORMAT_MASK) p.width with
      | none =>
        rw [hw_params_dai_rejected s m p v hr hd]
        refine ⟨?_, hw_params_dacmax_lt s p v, ?_⟩
        · simpa [update_errno] using he
        · simp [issued_update, last_clock_written_append, he,
            and_0xff_of_lt _ (hw_params_dacmax_lt s p v)]
      | some c =>
        rw [hw_params_accepted s m p v c hr hd]
        refine ⟨?_, hw_params_dacmax_lt s p v, ?_⟩
        · simpa [update_errno] using he
        · simp [issued_update, last_clock_written_append, he, update_errno, hw_params_committed,
            and_0xff_of_lt _ (hw_params_dacmax_lt s p v), PCM179X_CONF_CONTROL,
            PCM179X_FMT_CONTROL, DACMAX_CLOCK]
  | digital_mute v =>
    show clock_cache_inv (pcm179x_digital_mute s m v).2
    obtain ⟨h1, h2, h3⟩ := digital_mute_clock s m v
    refine ⟨?_, ?_, ?_⟩
    · rw [h2]; exact he
    · rw [h1]; exact hlt
    · rw [h1, h3]; exact hinv
  | switch_put v =>
    show clock_cache_inv (spdif_switch_put s m v).2
    by_cases hc : spdif_switch_get s = v
    · rw [switch_put_unchanged s m v hc]; exact ⟨he, hlt, hinv⟩
    · rw [switch_put_changed s m v hc]
      refine ⟨?_, switch_put_dacmax_lt s v, ?_⟩
      · by_cases hdsd : s.dsd_mode = 0 <;> simpa [update_errno, hdsd] using he
      · by_cases hdsd : s.dsd_mode = 0 <;>
          simp [issued_update, last_clock_written_append, he, update_errno, hdsd,
            and_0xff_of_lt _ (switch_put_dacmax_lt s v), PCM179X_CONF_CONTROL,
            PCM179X_SOFT_MUTE, PCM179X_FMT_CONTROL, DACMAX_CLOCK]
  | put_input v =>
    show clock_cache_inv ((spdif_put_input s v).2, m)
    refine ⟨he, ?_, ?_⟩
    · show (spdif_put_input s v).2.dacmax_register < 256
      unfold spdif_put_input
      simp only
      split_ifs <;> first | exact hlt | exact toU8_lt _
    · show (spdif_put_input s v).2.dacmax_register &&& not32 SPDIF_SEL = _
      rw [← hinv]
      unfold spdif_put_input
      simp only
      split_ifs <;> first
        | rfl
        | exact (put_input_bits_lt _ hlt).1
        | exact (put_input_bits_lt _ hlt).2

theorem clock_cache_inv_run (ops : List Op) (st : pcm179x_private × Regmap)
    (h : clock_cache_inv st) : clock_cache_inv (run st ops) := by
  induction ops generalizing st with
  | nil => exact h
  | cons op ops ih => exact ih (step st op) (clock_cache_inv_step st op h)

theorem run_append (st : pcm179x_private × Regmap) (ops : List Op) (op : Op) :
    run st (ops ++ [op]) = step (run st ops) op := by
  simp [run, List.foldl_append]

/-- C5, as stated, fails. From the state at binding time, on a bus that
accepts every update, `spdif_put_input(1)` sets `SPDIF_SEL` in the cache
and writes nothing, so the cache is 0x40 while register 0x20 was last
written never (power-on 0x00). And when the clock update of
`pcm179x_hw_params` fails with -5 (`-EIO`) the cache holds CLK0 while nothing
reached the register. -/
theorem clock_cache_diverges :
    (run (pcm179x_common_init, regmap_init (fun _ => 0)) [Op.put_input 1]).1.dacmax_register ≠
      last_clock_written
        (run (pcm179x_common_init, regmap_init (fun _ => 0)) [Op.put_input 1]).2.log ∧
    (run (pcm179x_common_init, regmap_init (fun k => if k = 0 then 5 else 0))
        [Op.hw_params ⟨48000, SNDRV_PCM_FORMAT_S16_LE, 16⟩]).1.dacmax_register ≠
      last_clock_written
        (run (pcm179x_common_init, regmap_init (fun k => if k = 0 then 5 else 0))
          [Op.hw_params ⟨48000, SNDRV_PCM_FORMAT_S16_LE, 16⟩]).2.log := by
  constructor <;> decide

/-- C5, amended: on a bus where no register update fails, after every
sequence of calls of `pcm179x_set_dai_fmt`, `pcm179x_hw_params`,
`pcm179x_digital_mute`, `spdif_switch_put` and `spdif_put_input` from the
state at binding time, `dacmax_register` and the last value written to
clock register 0x20 agree on every bit other than `SPDIF_SEL`; and the
two are equal right after a `pcm179x_hw_params` that passes the rate
switch and right after a `spdif_switch_put` that changes the input flag. -/
theorem clock_cache_invariant (ops : List Op) :
    ((run (pcm179x_common_init, regmap_init (fun _ => 0)) ops).1.dacmax_register
        &&& not32 SPDIF_SEL =
      last_clock_written (run (pcm179x_common_init, regmap_init (fun _ => 0)) ops).2.log
        &&& not32 SPDIF_SEL) ∧
    (∀ p v, hw_params_rate_switch p.rate p.format = some v →
      (run (pcm179x_common_init, regmap_init (fun _ => 0))
          (ops ++ [Op.hw_params p])).1.dacmax_register =
        last_clock_written
          (run (pcm179x_common_init, regmap_init (fun _ => 0)) (ops ++ [Op.hw_params p])).2.log) ∧
    (∀ value,
      spdif_switch_get (run (pcm179x_common_init, regmap_init (fun _ => 0)) ops).1 ≠ value →
      (run (pcm179x_common_init, regmap_init (fun _ => 0))
          (ops ++ [Op.switch_put value])).1.dacmax_register =
        last_clock_written
          (run (pcm179x_common_init, regmap_init (fun _ => 0))
            (ops ++ [Op.switch_put value])).2.log) := by
  have hI := clock_cache_inv_run ops _ (clock_cache_inv_init pcm179x_common_init rfl)
  simp only [run_append]
  generalize run (pcm179x_common_init, regmap_init (fun _ => 0)) ops = st at hI ⊢
  obtain ⟨s, m⟩ := st
  obtain ⟨he, _, hinv⟩ := hI
  simp only at he hinv
  refine ⟨hinv, ?_, ?_⟩
  · intro p v hr
    show (pcm179x_hw_params s m p).2.1.dacmax_register =
      last_clock_written (pcm179x_hw_params s m p).2.2.log
    cases hd : hw_params_dai_switch (s.format &&& SND_SOC_DAIFMT_FORMAT_MASK) p.width with
    | none =>
      rw [hw_params_dai_rejected s m p v hr hd]
      simp [issued_update, last_clock_written_append, he,
        and_0xff_of_lt _ (hw_params_dacmax_lt s p v)]
    | some c =>
      rw [hw_params_accepted s m p v c hr hd]
      simp [issued_update, last_clock_written_append, he, update_errno, hw_params_committed,
        and_0xff_of_lt _ (hw_params_dacmax_lt s p v), PCM179X_CONF_CONTROL,
        PCM179X_FMT_CONTROL, DACMAX_CLOCK]
  · intro value hc
    show (spdif_switch_put s m value).2.1.dacmax_register =
      last_clock_written (spdif_switch_put s m value).2.2.log
    rw [switch_put_changed s m value hc]
    by_cases hdsd : s.dsd_mode = 0 <;>
      simp [issued_update, last_clock_written_append, he, update_errno, hdsd,
        and_0xff_of_lt _ (switch_put_dacmax_lt s value), PCM179X_CONF_CONTROL,
        PCM179X_SOFT_MUTE, PCM179X_FMT_CONTROL, DACMAX_CLOCK]

/-! ## C6 -/

theorem update_regs_other (m : Regmap) (reg mask val a : Nat) (h : a ≠ reg) :
    (regmap_update_bits m reg mask val).2.regs a = m.regs a := by
  unfold regmap_update_bits
  simp only
  split_ifs <;> simp [h]

theorem update_regs_same (m : Regmap) (reg mask val : Nat) (h : m.errno m.log.length = 0) :
    (regmap_update_bits m reg mask val).2.regs reg =
      toU8 ((m.regs reg &&& not32 mask) ||| (val &&& mask)) := by
  unfold regmap_update_bits
  simp [h]

theorem dsd_enable_cleared (x : Nat) :
    toU8 (x &&& not32 PCM179X_DSD_ENABLE) &&& PCM179X_DSD_ENABLE = 0 := by
  have h8 : toU8 (x &&& not32 PCM179X_DSD_ENABLE) = (x &&& not32 PCM179X_DSD_ENABLE) &&& 0xff :=
    (Nat.and_pow_two_sub_one_eq_mod _ 8).symm
  rw [h8, Nat.and_assoc, Nat.and_assoc]
  exact Nat.and_zero x

/-- The DSD update of `spdif_switch_put` passes `!value`, that is 0 or 1,
as the value under mask 0x20: no bit of it lies under the mask, so a
successful update clears the DSD-enable bit of register 0x14 whatever the
requested value is. -/
theorem switch_put_clears_dsd_enable (s : pcm179x_private) (m : Regmap) (value : Int)
    (hdsd : s.dsd_mode ≠ 0) (hc : spdif_switch_get s ≠ value) (hok : m.errno m.log.length = 0) :
    (spdif_switch_put s m value).2.2.regs PCM179X_CONF_CONTROL &&& PCM179X_DSD_ENABLE = 0 := by
  rw [switch_put_changed s m value hc, if_pos hdsd]
  simp only
  rw [update_regs_other _ _ _ _ _ (by decide), update_regs_other _ _ _ _ _ (by decide),
    update_regs_same _ _ _ _ hok]
  have hv : (if value = 0 then 1 else 0) &&& PCM179X_DSD_ENABLE = 0 := by
    split_ifs <;> rfl
  rw [hv, Nat.or_zero]
  exact dsd_enable_cleared _

/-- C6 at the failing input: DSD playback at 44100 Hz over I2S, then the
SPDIF input switched on, then `spdif_switch_put(0)`. The flag changes
(the call returns 1), `dsd_mode` is set, the update of register 0x14
succeeds, and the DSD-enable bit is 0 afterwards, not NOT 0 = 1. -/
theorem switch_put_off_leaves_dsd_disabled :
    (run (pcm179x_common_init, regmap_init (fun _ => 0))
      [Op.set_dai_fmt SND_SOC_DAIFMT_I2S, Op.hw_params ⟨44100, SNDRV_PCM_FORMAT_DSD_U16_LE, 16⟩,
        Op.switch_put 1]).1.dsd_mode = 1 ∧
    spdif_switch_get (run (pcm179x_common_init, regmap_init (fun _ => 0))
      [Op.set_dai_fmt SND_SOC_DAIFMT_I2S, Op.hw_params ⟨44100, SNDRV_PCM_FORMAT_DSD_U16_LE, 16⟩,
        Op.switch_put 1]).1 = 1 ∧
    (spdif_switch_put
      (run (pcm179x_common_init, regmap_init (fun _ => 0))
        [Op.set_dai_fmt SND_SOC_DAIFMT_I2S, Op.hw_params ⟨44100, SNDRV_PCM_FORMAT_DSD_U16_LE, 16⟩,
          Op.switch_put 1]).1
      (run (pcm179x_common_init, regmap_init (fun _ => 0))
        [Op.set_dai_fmt SND_SOC_DAIFMT_I2S, Op.hw_params ⟨44100, SNDRV_PCM_FORMAT_DSD_U16_LE, 16⟩,
          Op.switch_put 1]).2 0).1 = 1 ∧
    issued
      (run (pcm179x_common_init, regmap_init (fun _ => 0))
        [Op.set_dai_fmt SND_SOC_DAIFMT_I2S, Op.hw_params ⟨44100, SNDRV_PCM_FORMAT_DSD_U16_LE, 16⟩,
          Op.switch_put 1]).2
      (spdif_switch_put
        (run (pcm179x_common_init, regmap_init (fun _ => 0))
          [Op.set_dai_fmt SND_SOC_DAIFMT_I2S,
            Op.hw_params ⟨44100, SNDRV_PCM_FORMAT_DSD_U16_LE, 16⟩, Op.switch_put 1]).1
        (run (pcm179x_common_init, regmap_init (fun _ => 0))
          [Op.set_dai_fmt SND_SOC_DAIFMT_I2S,
            Op.hw_params ⟨44100, SNDRV_PCM_FORMAT_DSD_U16_LE, 16⟩, Op.switch_put 1]).2 0).2.2 =
      [⟨0x14, 0x20, 1, 0⟩, ⟨0x20, 0xff, 0x10, 0⟩, ⟨0x12, 0x01, 0, 0⟩] ∧
    (spdif_switch_put
      (run (pcm179x_common_init, regmap_init (fun _ => 0))
        [Op.set_dai_fmt SND_SOC_DAIFMT_I2S, Op.hw_params ⟨44100, SNDRV_PCM_FORMAT_DSD_U16_LE, 16⟩,
          Op.switch_put 1]).1
      (run (pcm179x_common_init, regmap_init (fun _ => 0))
        [Op.set_dai_fmt SND_SOC_DAIFMT_I2S, Op.hw_params ⟨44100, SNDRV_PCM_FORMAT_DSD_U16_LE, 16⟩,
          Op.switch_put 1]).2 0).2.2.regs PCM179X_CONF_CONTROL &&& PCM179X_DSD_ENABLE = 0 := by
  refine ⟨?_, ?_, ?_, ?_, ?_⟩ <;> rfl

/-! ## C7 -/

/-- C7: for every sample format other than DSD_U16_LE, every protocol and
every width, `pcm179x_hw_params` with rate 352800 or 705600 returns
-EINVAL and issues no register update. -/
theorem hw_params_dsd_only_rates (s : pcm179x_private) (m : Regmap) (p : snd_pcm_hw_params)
    (hfmt : p.format ≠ SNDRV_PCM_FORMAT_DSD_U16_LE)
    (hrate : p.rate = 352800 ∨ p.rate = 705600) :
    (pcm179x_hw_params s m p).1 = -EINVAL ∧ issued m (pcm179x_hw_params s m p).2.2 = [] := by
  have hr : hw_params_rate_switch p.rate p.format = none := by
    rcases hrate with h | h <;> simp [hw_params_rate_switch, h, hfmt]
  have hi := hw_params_issued s m p
  rw [hr] at hi
  rw [hi, hw_params_rate_rejected s m p hr]
  exact ⟨rfl, rfl⟩

/-- C7 at a concrete call: 352800 Hz with S32_LE over I2S, 32-bit words. -/
theorem hw_params_dsd_only_rates_witness :
    SNDRV_PCM_FORMAT_S32_LE ≠ SNDRV_PCM_FORMAT_DSD_U16_LE ∧
    (pcm179x_hw_params { pcm179x_common_init with format := SND_SOC_DAIFMT_I2S }
      (regmap_init (fun _ => 0)) ⟨352800, SNDRV_PCM_FORMAT_S32_LE, 32⟩).1 = -EINVAL ∧
    issued (regmap_init (fun _ => 0))
      (pcm179x_hw_params { pcm179x_common_init with format := SND_SOC_DAIFMT_I2S }
        (regmap_init (fun _ => 0)) ⟨352800, SNDRV_PCM_FORMAT_S32_LE, 32⟩).2.2 = [] :=
  ⟨by decide,
    hw_params_dsd_only_rates { pcm179x_common_init with format := SND_SOC_DAIFMT_I2S }
      (regmap_init (fun _ => 0)) ⟨352800, SNDRV_PCM_FORMAT_S32_LE, 32⟩ (by decide) (Or.inl rfl)⟩

/-! ## C8 -/

/-- C8, as stated, fails: at 352800 Hz with DSD_U16_LE the call returns
-EINVAL, not 0, when no DAI format has been set (protocol 0), when the
protocol is left-justified, and when the width is 20 over I2S. -/
theorem hw_params_dsd_352800_rejected :
    (pcm179x_hw_params pcm179x_common_init (regmap_init (fun _ => 0))
      ⟨352800, SNDRV_PCM_FORMAT_DSD_U16_LE, 16⟩).1 = -EINVAL ∧
    (pcm179x_hw_params { pcm179x_common_init with format := SND_SOC_DAIFMT_LEFT_J }
      (regmap_init (fun _ => 0)) ⟨352800, SNDRV_PCM_FORMAT_DSD_U16_LE, 16⟩).1 = -EINVAL ∧
    (pcm179x_hw_params { pcm179x_common_init with format := SND_SOC_DAIFMT_I2S }
      (regmap_init (fun _ => 0)) ⟨352800, SNDRV_PCM_FORMAT_DSD_U16_LE, 20⟩).1 = -EINVAL := by
  refine ⟨?_, ?_, ?_⟩ <;> rfl

set_option maxRecDepth 100000 in
theorem merge_bits_lt : ∀ w < 32, ∀ x < 128,
    toU8 (toU8 (x &&& 0x60) ||| w) &&& 0x60 = x &&& 0x60 ∧
    toU8 (toU8 (x &&& 0x60) ||| w) &&& not32 0x60 = w ∧
    toU8 (toU8 (x &&& 0x60) ||| w) &&& 0xff &&& 0x1f = w := by
  decide

theorem merge_bits (d w : Nat) (hw : w < 32) :
    toU8 (toU8 (d &&& (SPDIF_IN ||| SPDIF_SEL)) ||| w) &&& (SPDIF_IN ||| SPDIF_SEL) =
      d &&& (SPDIF_IN ||| SPDIF_SEL) ∧
    toU8 (toU8 (d &&& (SPDIF_IN ||| SPDIF_SEL)) ||| w) &&& not32 (SPDIF_IN ||| SPDIF_SEL) = w ∧
    toU8 (toU8 (d &&& (SPDIF_IN ||| SPDIF_SEL)) ||| w) &&& 0xff &&& 0x1f = w := by
  have h : d &&& (SPDIF_IN ||| SPDIF_SEL) = (d % 128) &&& 0x60 := and_eq_mod_and d 0x60 7 (by decide)
  rw [h]
  exact merge_bits_lt w hw (d % 128) (Nat.mod_lt _ (by decide))

theorem dai_switch_none_iff (f : Nat) (w : Int) :
    hw_params_dai_switch f w = none ↔
      ¬ ((f = SND_SOC_DAIFMT_RIGHT_J ∨ f = SND_SOC_DAIFMT_I2S) ∧ (w = 16 ∨ w = 24 ∨ w = 32)) := by
  unfold hw_params_dai_switch
  split_ifs <;> simp_all

/-- C8, amended: at 352800 Hz with DSD_U16_LE, for every DAI protocol and
every width, the call passes the rate switch and the one value it writes
to clock register 0x20 has W32 (0x08) set; it returns 0 when the protocol
is right-justified or I2S, the width is 16, 24 or 32 and no update fails,
and it returns -EINVAL for every other protocol or width once the clock
update has succeeded. -/
theorem hw_params_dsd_352800 (s : pcm179x_private) (m : Regmap) (p : snd_pcm_hw_params)
    (hr : p.rate = 352800) (hf : p.format = SNDRV_PCM_FORMAT_DSD_U16_LE) :
    (∃ x, clock_values (issued m (pcm179x_hw_params s m p).2.2) = [x] ∧ x &&& W32 = W32) ∧
    (((s.format &&& SND_SOC_DAIFMT_FORMAT_MASK = SND_SOC_DAIFMT_RIGHT_J ∨
        s.format &&& SND_SOC_DAIFMT_FORMAT_MASK = SND_SOC_DAIFMT_I2S) ∧
        (p.width = 16 ∨ p.width = 24 ∨ p.width = 32)) →
      (∀ k, m.errno k = 0) → (pcm179x_hw_params s m p).1 = 0) ∧
    (¬ ((s.format &&& SND_SOC_DAIFMT_FORMAT_MASK = SND_SOC_DAIFMT_RIGHT_J ∨
        s.format &&& SND_SOC_DAIFMT_FORMAT_MASK = SND_SOC_DAIFMT_I2S) ∧
        (p.width = 16 ∨ p.width = 24 ∨ p.width = 32)) →
      m.errno m.log.length = 0 → (pcm179x_hw_params s m p).1 = -EINVAL) := by
  have hrs : hw_params_rate_switch p.rate p.format = some 0x0b := by rw [hr, hf]; rfl
  refine ⟨⟨_, hw_params_clock_values s m p _ hrs, ?_⟩, ?_, ?_⟩
  · have hfs : hw_params_format_switch p.format 0x0b = 0x1b := by rw [hf]; rfl
    unfold hw_params_dacmax
    rw [hfs]
    have h3 := (merge_bits s.dacmax_register 0x1b (by decide)).2.2
    have h8 : ∀ x : Nat, x &&& W32 = (x &&& 0x1f) &&& W32 := by
      intro x; rw [Nat.and_assoc]; rfl
    rw [h8, h3]; rfl
  · intro hsup _
    cases hd : hw_params_dai_switch (s.format &&& SND_SOC_DAIFMT_FORMAT_MASK) p.width with
    | none => exact absurd hsup ((dai_switch_none_iff _ _).1 hd)
    | some c => rw [hw_params_accepted s m p _ c hrs hd]
  · intro hsup _
    rw [hw_params_dai_rejected s m p _ hrs ((dai_switch_none_iff _ _).2 hsup)]

/-- The amended C8 at a concrete call: 352800 Hz DSD_U16_LE over I2S with
16-bit words returns 0. -/
theorem hw_params_dsd_352800_witness :
    (pcm179x_hw_params { pcm179x_common_init with format := SND_SOC_DAIFMT_I2S }
      (regmap_init (fun _ => 0)) ⟨352800, SNDRV_PCM_FORMAT_DSD_U16_LE, 16⟩).1 = 0 :=
  (hw_params_dsd_352800 { pcm179x_common_init with format := SND_SOC_DAIFMT_I2S }
    (regmap_init (fun _ => 0)) ⟨352800, SNDRV_PCM_FORMAT_DSD_U16_LE, 16⟩ rfl rfl).2.1
    ⟨Or.inr rfl, Or.inl rfl⟩ (fun _ => rfl)

/-! ## C9 -/

theorem and_or_distrib_right (a b c : Nat) : (a ||| b) &&& c = (a &&& c) ||| (b &&& c) := by
  rw [Nat.and_comm, Nat.and_or_distrib_left, Nat.and_comm c a, Nat.and_comm c b]

theorem toU8_eq_and (x : Nat) : toU8 x = x &&& 0xff :=
  (Nat.and_pow_two_sub_one_eq_mod x 8).symm

/-- Bits of a register under a mask `f` inside the update mask `mask`
take the bits of the written value. -/
theorem update_field (old mask val f : Nat) (hf : f &&& mask = f) (h8 : f &&& 0xff = f)
    (h32 : not32 mask &&& f = 0) :
    toU8 ((old &&& not32 mask) ||| (val &&& mask)) &&& f = val &&& f := by
  rw [toU8_eq_and, Nat.and_assoc, Nat.and_comm 0xff f, h8, and_or_distrib_right,
    Nat.and_assoc, h32, Nat.and_zero, Nat.zero_or, Nat.and_assoc, Nat.and_comm mask f, hf]

theorem rate_switch_pcm (rate : Nat) (format : Int)
    (hrate : rate ∈ [44100, 48000, 88200, 96000, 176400, 192000]) :
    ∃ v, hw_params_rate_switch rate format = some v := by
  simp only [List.mem_cons, List.mem_singleton, List.mem_nil_iff, or_false] at hrate
  rcases hrate with h | h | h | h | h | h <;> subst h <;> exact ⟨_, rfl⟩

/-- C9: for a sample format other than DSD at one of the six PCM rates,
the second update `pcm179x_hw_params` issues goes to format-control
register 0x12 with a mask covering bits 6:4, and carries in those bits
the code of the table (right-justified: 16 gives 0, 24 gives 2, 32 gives
1; I2S: 16 gives 4, 24 gives 5, 32 gives 4), which are the bits 6:4 of the
register once that update has succeeded; for every other protocol or
width the call returns -EINVAL. -/
theorem hw_params_format_select (s : pcm179x_private) (m : Regmap) (p : snd_pcm_hw_params)
    (hfmt : p.format ≠ SNDRV_PCM_FORMAT_DSD_U16_LE)
    (hrate : p.rate ∈ [44100, 48000, 88200, 96000, 176400, 192000]) :
    (∀ c, (s.format &&& SND_SOC_DAIFMT_FORMAT_MASK, p.width, c) ∈
        [(SND_SOC_DAIFMT_RIGHT_J, (16 : Int), 0), (SND_SOC_DAIFMT_RIGHT_J, 24, 2),
          (SND_SOC_DAIFMT_RIGHT_J, 32, 1), (SND_SOC_DAIFMT_I2S, 16, 4),
          (SND_SOC_DAIFMT_I2S, 24, 5), (SND_SOC_DAIFMT_I2S, 32, 4)] →
      ∃ u, (issued m (pcm179x_hw_params s m p).2.2)[1]? = some u ∧
        u.reg = PCM179X_FMT_CONTROL ∧
        u.mask &&& PCM179X_FMT_MASK = PCM179X_FMT_MASK ∧
        (u.val &&& PCM179X_FMT_MASK) >>> PCM179X_FMT_SHIFT = c ∧
        (u.ret = 0 →
          ((pcm179x_hw_params s m p).2.2.regs PCM179X_FMT_CONTROL &&& PCM179X_FMT_MASK)
            >>> PCM179X_FMT_SHIFT = c)) ∧
    (¬ ((s.format &&& SND_SOC_DAIFMT_FORMAT_MASK = SND_SOC_DAIFMT_RIGHT_J ∨
        s.format &&& SND_SOC_DAIFMT_FORMAT_MASK = SND_SOC_DAIFMT_I2S) ∧
        (p.width = 16 ∨ p.width = 24 ∨ p.width = 32)) →
      (pcm179x_hw_params s m p).1 = -EINVAL) := by
  obtain ⟨v, hrs⟩ := rate_switch_pcm p.rate p.format hrate
  constructor
  · intro c hc
    have key : ∀ c', hw_params_dai_switch (s.format &&& SND_SOC_DAIFMT_FORMAT_MASK) p.width = some c' →
        (((c' <<< PCM179X_FMT_SHIFT) ||| PCM179X_ATLD_ENABLE) &&& PCM179X_FMT_MASK)
          >>> PCM179X_FMT_SHIFT = c →
        ∃ u, (issued m (pcm179x_hw_params s m p).2.2)[1]? = some u ∧
          u.reg = PCM179X_FMT_CONTROL ∧
          u.mask &&& PCM179X_FMT_MASK = PCM179X_FMT_MASK ∧
          (u.val &&& PCM179X_FMT_MASK) >>> PCM179X_FMT_SHIFT = c ∧
          (u.ret = 0 →
            ((pcm179x_hw_params s m p).2.2.regs PCM179X_FMT_CONTROL &&& PCM179X_FMT_MASK)
              >>> PCM179X_FMT_SHIFT = c) := by
      intro c' hd hcode
      have hi := hw_params_issued s m p
      rw [hrs, hd] at hi
      simp only [hi, if_neg hfmt]
      refine ⟨⟨PCM179X_FMT_CONTROL, PCM179X_FMT_MASK ||| PCM179X_ATLD_ENABLE ||| PCM179X_DSD_FILTER 3,
        (c' <<< PCM179X_FMT_SHIFT) ||| PCM179X_ATLD_ENABLE, -(m.errno (m.log.length + 1) : Int)⟩,
        rfl, rfl, (rfl : (0xfc : Nat) &&& 0x70 = 0x70), hcode, ?_⟩
      intro hret
      have hok : m.errno (m.log.length + 1) = 0 := by
        simpa using hret
      rw [hw_params_accepted s m p v c' hrs hd]
      simp only [if_neg hfmt]
      rw [update_regs_other _ _ _ _ _ (by decide), update_regs_same _ _ _ _
        (by rw [update_errno, issued_update]; simpa using hok),
        update_field _ _ _ _ rfl rfl rfl]
      exact hcode
    simp only [List.mem_cons, List.mem_singleton, List.mem_nil_iff, or_false, Prod.mk.injEq] at hc
    rcases hc with ⟨h1, h2, h3⟩ | ⟨h1, h2, h3⟩ | ⟨h1, h2, h3⟩ | ⟨h1, h2, h3⟩ | ⟨h1, h2, h3⟩ |
      ⟨h1, h2, h3⟩ <;>
      exact key c (by rw [h1, h2, h3]; rfl) (by rw [h3]; rfl)
  · intro hsup
    rw [hw_params_dai_rejected s m p v hrs ((dai_switch_none_iff _ _).2 hsup)]

/-- C9 at a concrete call: 48000 Hz S24_LE, right-justified, 24-bit words
gives code 2, the update being (0x12, 0xfc, 0xa0). -/
theorem hw_params_format_select_witness :
    ∃ u, (issued (regmap_init (fun _ => 0))
        (pcm179x_hw_params { pcm179x_common_init with format := SND_SOC_DAIFMT_RIGHT_J }
          (regmap_init (fun _ => 0)) ⟨48000, SNDRV_PCM_FORMAT_S24_LE, 24⟩).2.2)[1]? = some u ∧
      u.reg = PCM179X_FMT_CONTROL ∧
      u.mask &&& PCM179X_FMT_MASK = PCM179X_FMT_MASK ∧
      (u.val &&& PCM179X_FMT_MASK) >>> PCM179X_FMT_SHIFT = 2 ∧
      (u.ret = 0 →
        ((pcm179x_hw_params { pcm179x_common_init with format := SND_SOC_DAIFMT_RIGHT_J }
          (regmap_init (fun _ => 0)) ⟨48000, SNDRV_PCM_FORMAT_S24_LE, 24⟩).2.2.regs
            PCM179X_FMT_CONTROL &&& PCM179X_FMT_MASK) >>> PCM179X_FMT_SHIFT = 2) :=
  (hw_params_format_select { pcm179x_common_init with format := SND_SOC_DAIFMT_RIGHT_J }
    (regmap_init (fun _ => 0)) ⟨48000, SNDRV_PCM_FORMAT_S24_LE, 24⟩ (by decide) (by decide)).1 2
    (by decide)

/-! ## C10 -/

theorem resolved_bits_lt (rate : Nat) (format : Int) (v : Nat)
    (h : hw_params_rate_switch rate format = some v) :
    hw_params_format_switch format v < 32 := by
  unfold hw_params_rate_switch at h
  simp only at h
  split_ifs at h <;> cases h <;> unfold hw_params_format_switch <;> split_ifs <;> decide

theorem clock_update_value (old d : Nat) (hd : d < 256) :
    toU8 ((old &&& not32 0xff) ||| (d &&& 0xff)) = d := by
  have h := update_field old 0xff d 0xff rfl rfl rfl
  rw [and_0xff_of_lt _ (toU8_lt _)] at h
  rw [h, and_0xff_of_lt d hd]

/-- C10: for every prior state and every (rate, format) that passes the
rate switch, after `pcm179x_hw_params` the SPDIF_IN and SPDIF_SEL bits of
`dacmax_register` are those from before the call, its remaining bits are
exactly the freshly resolved clock/format bits, the first update issued
is that of register 0x20 under mask 0xff with the new `dacmax_register`
as value, and this is what register 0x20 holds when the update succeeds. -/
theorem hw_params_keeps_spdif_bits (s : pcm179x_private) (m : Regmap) (p : snd_pcm_hw_params)
    (v : Nat) (h : hw_params_rate_switch p.rate p.format = some v) :
    (pcm179x_hw_params s m p).2.1.dacmax_register &&& SPDIF_IN =
      s.dacmax_register &&& SPDIF_IN ∧
    (pcm179x_hw_params s m p).2.1.dacmax_register &&& SPDIF_SEL =
      s.dacmax_register &&& SPDIF_SEL ∧
    (pcm179x_hw_params s m p).2.1.dacmax_register &&& not32 (SPDIF_IN ||| SPDIF_SEL) =
      hw_params_format_switch p.format v ∧
    (issued m (pcm179x_hw_params s m p).2.2).head? =
      some ⟨DACMAX_CLOCK, 0xff, (pcm179x_hw_params s m p).2.1.dacmax_register,
        -(m.errno m.log.length : Int)⟩ ∧
    (m.errno m.log.length = 0 →
      (pcm179x_hw_params s m p).2.2.regs DACMAX_CLOCK =
        (pcm179x_hw_params s m p).2.1.dacmax_register) := by
  have hd : (pcm179x_hw_params s m p).2.1.dacmax_register = hw_params_dacmax s p v :=
    (hw_params_commits s m p v h).2
  obtain ⟨h1, h2, _⟩ := merge_bits s.dacmax_register _ (resolved_bits_lt _ _ _ h)
  have hin : ∀ x : Nat, x &&& SPDIF_IN = (x &&& (SPDIF_IN ||| SPDIF_SEL)) &&& SPDIF_IN := by
    intro x; rw [Nat.and_assoc]; rfl
  have hsel : ∀ x : Nat, x &&& SPDIF_SEL = (x &&& (SPDIF_IN ||| SPDIF_SEL)) &&& SPDIF_SEL := by
    intro x; rw [Nat.and_assoc]; rfl
  rw [hd]
  refine ⟨?_, ?_, h2, ?_, ?_⟩
  · rw [hin, hin s.dacmax_register]; unfold hw_params_dacmax; rw [h1]
  · rw [hsel, hsel s.dacmax_register]; unfold hw_params_dacmax; rw [h1]
  · rw [hw_params_issued, h]; rfl
  · intro hok
    cases hdai : hw_params_dai_switch (s.format &&& SND_SOC_DAIFMT_FORMAT_MASK) p.width with
    | none =>
      rw [hw_params_dai_rejected s m p v h hdai]
      simp only
      rw [update_regs_same _ _ _ _ hok, clock_update_value _ _ (hw_params_dacmax_lt s p v)]
    | some c =>
      rw [hw_params_accepted s m p v c h hdai]
      simp only
      rw [update_regs_other _ _ _ _ _ (by decide), update_regs_other _ _ _ _ _ (by decide),
        update_regs_same _ _ _ _ hok, clock_update_value _ _ (hw_params_dacmax_lt s p v)]

/-- C10 at a concrete call: both SPDIF bits and the clock bits of 192000
Hz are set before, 48000 Hz S24_LE is requested; the SPDIF bits stay,
the other bits become CLK0 | W32, and 0x6c goes to register 0x20. -/
theorem hw_params_keeps_spdif_bits_witness :
    (pcm179x_hw_params
      { pcm179x_common_init with format := SND_SOC_DAIFMT_I2S, dacmax_register := 0x67 }
      (regmap_init (fun _ => 0)) ⟨48000, SNDRV_PCM_FORMAT_S24_LE, 24⟩).2.1.dacmax_register
        &&& not32 (SPDIF_IN ||| SPDIF_SEL) = 0x0c ∧
    (issued (regmap_init (fun _ => 0))
      (pcm179x_hw_params
        { pcm179x_common_init with format := SND_SOC_DAIFMT_I2S, dacmax_register := 0x67 }
        (regmap_init (fun _ => 0)) ⟨48000, SNDRV_PCM_FORMAT_S24_LE, 24⟩).2.2).head? =
      some ⟨DACMAX_CLOCK, 0xff, 0x6c, 0⟩ :=
  have h := hw_params_keeps_spdif_bits
    { pcm179x_common_init with format := SND_SOC_DAIFMT_I2S, dacmax_register := 0x67 }
    (regmap_init (fun _ => 0)) ⟨48000, SNDRV_PCM_FORMAT_S24_LE, 24⟩ 4 rfl
  ⟨h.2.2.1, h.2.2.2.1⟩

/-! ## C11 -/

theorem dsd_en_resolved (rate : Nat) (format : Int) (v : Nat)
    (h : hw_params_rate_switch rate format = some v)
    (hf : format = SNDRV_PCM_FORMAT_DSD_U16_LE) :
    hw_params_format_switch format v &&& DSD_EN = DSD_EN := by
  subst hf
  unfold hw_params_rate_switch at h
  simp only at h
  split_ifs at h <;> cases h <;> rfl

theorem hw_params_dacmax_dsd_en (s : pcm179x_private) (p : snd_pcm_hw_params) (v : Nat)
    (h : hw_params_rate_switch p.rate p.format = some v)
    (hf : p.format = SNDRV_PCM_FORMAT_DSD_U16_LE) :
    hw_params_dacmax s p v &&& DSD_EN = DSD_EN := by
  have h8 : ∀ x : Nat, x &&& DSD_EN = x &&& 0xff &&& 0x1f &&& DSD_EN := by
    intro x; rw [Nat.and_assoc, Nat.and_assoc]; rfl
  have h3 := (merge_bits s.dacmax_register _ (resolved_bits_lt _ _ _ h)).2.2
  unfold hw_params_dacmax
  rw [h8, h3]
  exact dsd_en_resolved _ _ _ h hf

/-- C11: for a rate that passes the rate switch and a (protocol, width)
pair that passes the DAI switch, on a bus where every update succeeds,
`pcm179x_hw_params` issues exactly three updates. With DSD_U16_LE they
are, in this order, register 0x20 under mask 0xff with DSD_EN set in the
value, register 0x12 under mask 0xfc with value 0x08, register 0x14 under
mask 0x20 with value 0x20, and `dsd_mode` becomes 1. With any other
format the third update has value 0 and `dsd_mode` becomes 0. -/
theorem hw_params_update_order (s : pcm179x_private) (m : Regmap) (p : snd_pcm_hw_params)
    (v c : Nat) (hr : hw_params_rate_switch p.rate p.format = some v)
    (hd : hw_params_dai_switch (s.format &&& SND_SOC_DAIFMT_FORMAT_MASK) p.width = some c)
    (hok : ∀ k, m.errno k = 0) :
    (p.format = SNDRV_PCM_FORMAT_DSD_U16_LE →
      (∃ x, issued m (pcm179x_hw_params s m p).2.2 =
          [⟨0x20, 0xff, x, 0⟩, ⟨0x12, 0xfc, 0x08, 0⟩, ⟨0x14, 0x20, 0x20, 0⟩] ∧
        x &&& DSD_EN = DSD_EN) ∧
      (pcm179x_hw_params s m p).2.1.dsd_mode = 1) ∧
    (p.format ≠ SNDRV_PCM_FORMAT_DSD_U16_LE →
      (∃ x y, issued m (pcm179x_hw_params s m p).2.2 =
          [⟨0x20, 0xff, x, 0⟩, ⟨0x12, 0xfc, y, 0⟩, ⟨0x14, 0x20, 0x00, 0⟩]) ∧
      (pcm179x_hw_params s m p).2.1.dsd_mode = 0) := by
  have hi := hw_params_issued s m p
  rw [hr, hd] at hi
  simp only [hok, Nat.cast_zero, neg_zero] at hi
  have hs := hw_params_accepted s m p v c hr hd
  constructor
  · intro hf
    refine ⟨⟨hw_params_dacmax s p v, ?_, hw_params_dacmax_dsd_en s p v hr hf⟩, ?_⟩
    · rw [hi, if_pos hf, if_pos hf]; rfl
    · rw [hs]; simp [hw_params_committed, hf]
  · intro hf
    refine ⟨⟨hw_params_dacmax s p v, (c <<< PCM179X_FMT_SHIFT) ||| PCM179X_ATLD_ENABLE, ?_⟩, ?_⟩
    · rw [hi, if_neg hf, if_neg hf]; rfl
    · rw [hs]; simp [hw_params_committed, hf]

/-- C11 at a concrete call: 44100 Hz DSD_U16_LE over I2S with 16-bit
words from the state at binding time; the clock value is DSD_EN alone. -/
theorem hw_params_update_order_witness :
    (∀ k, (regmap_init (fun _ => 0)).errno k = 0) ∧
    (∃ x, issued (regmap_init (fun _ => 0))
        (pcm179x_hw_params { pcm179x_common_init with format := SND_SOC_DAIFMT_I2S }
          (regmap_init (fun _ => 0)) ⟨44100, SNDRV_PCM_FORMAT_DSD_U16_LE, 16⟩).2.2 =
        [⟨0x20, 0xff, x, 0⟩, ⟨0x12, 0xfc, 0x08, 0⟩, ⟨0x14, 0x20, 0x20, 0⟩] ∧
      x &&& DSD_EN = DSD_EN) ∧
    (pcm179x_hw_params { pcm179x_common_init with format := SND_SOC_DAIFMT_I2S }
      (regmap_init (fun _ => 0)) ⟨44100, SNDRV_PCM_FORMAT_DSD_U16_LE, 16⟩).2.1.dsd_mode = 1 :=
  ⟨fun _ => rfl,
    (hw_params_update_order { pcm179x_common_init with format := SND_SOC_DAIFMT_I2S }
      (regmap_init (fun _ => 0)) ⟨44100, SNDRV_PCM_FORMAT_DSD_U16_LE, 16⟩ 0 4 rfl rfl
      (fun _ => rfl)).1 rfl⟩

/-! ## C12 -/

theorem toU32_of_range (x : Int) (h0 : 0 ≤ x) (h1 : x < 4294967296) : (toU32 x : Int) = x := by
  unfold toU32
  rw [Int.emod_eq_of_lt h0 h1, Int.toNat_of_nonneg h0]

theorem digital_mute_soft_eq (s : pcm179x_private) (m : Regmap) (mute : Int) :
    (digital_mute_soft s m mute).2 =
      (s, (regmap_update_bits m PCM179X_SOFT_MUTE PCM179X_MUTE_MASK
        (if mute ≠ 0 then 1 else 0)).2) := by
  unfold digital_mute_soft
  simp only
  split_ifs <;> rfl

theorem update_ret (m : Regmap) (reg mask val : Nat) :
    (regmap_update_bits m reg mask val).1 = -(m.errno m.log.length : Int) := rfl

theorem digital_mute_soft_ret (s : pcm179x_private) (m : Regmap) (mute : Int) :
    (digital_mute_soft s m mute).1 = -(m.errno m.log.length : Int) := by
  unfold digital_mute_soft
  simp only [update_ret]
  split_ifs <;> first
    | rfl
    | (show (0 : Int) = _; omega)

theorem digital_mute_noop (s : pcm179x_private) (m : Regmap) (mute : Int)
    (hin : s.dacmax_register &&& SPDIF_IN ≠ 0) (hm : mute ≠ 0) :
    pcm179x_digital_mute s m mute = (0, { s with is_mute := toU32 mute }, m) := by
  unfold pcm179x_digital_mute
  simp [hin, hm]

/-- C12: in every state with the SPDIF_IN bit of `dacmax_register` set,
whatever `dsd_mode` is, `pcm179x_digital_mute` with a non-zero request
issues no register update and returns 0, while `is_mute` takes the
requested value (as an `unsigned int`; the request itself when it fits). -/
theorem digital_mute_spdif_noop (s : pcm179x_private) (m : Regmap) (mute : Int)
    (hin : s.dacmax_register &&& SPDIF_IN ≠ 0) (hm : mute ≠ 0) :
    (pcm179x_digital_mute s m mute).1 = 0 ∧
    issued m (pcm179x_digital_mute s m mute).2.2 = [] ∧
    (pcm179x_digital_mute s m mute).2.2.regs = m.regs ∧
    (pcm179x_digital_mute s m mute).2.1.is_mute = toU32 mute ∧
    (0 ≤ mute → mute < 4294967296 →
      ((pcm179x_digital_mute s m mute).2.1.is_mute : Int) = mute) := by
  rw [digital_mute_noop s m mute hin hm]
  refine ⟨rfl, by simp [issued], rfl, rfl, ?_⟩
  intro h0 h1
  exact toU32_of_range mute h0 h1

/-- C12 at a concrete call: SPDIF input on, DSD playing, mute requested. -/
theorem digital_mute_spdif_noop_witness :
    (pcm179x_digital_mute { pcm179x_common_init with dsd_mode := 1, dacmax_register := 0x30 }
      (regmap_init (fun _ => 0)) 1).1 = 0 ∧
    issued (regmap_init (fun _ => 0))
      (pcm179x_digital_mute { pcm179x_common_init with dsd_mode := 1, dacmax_register := 0x30 }
        (regmap_init (fun _ => 0)) 1).2.2 = [] ∧
    (pcm179x_digital_mute { pcm179x_common_init with dsd_mode := 1, dacmax_register := 0x30 }
      (regmap_init (fun _ => 0)) 1).2.1.is_mute = 1 :=
  have h := digital_mute_spdif_noop
    { pcm179x_common_init with dsd_mode := 1, dacmax_register := 0x30 }
    (regmap_init (fun _ => 0)) 1 (by decide) (by decide)
  ⟨h.1, h.2.1, h.2.2.2.1⟩

/-! ## C13 -/

theorem digital_mute_plain (s : pcm179x_private) (m : Regmap) (mute : Int)
    (h : mute = 0 ∨ (s.dacmax_register &&& SPDIF_IN = 0 ∧ s.dsd_mode = 0)) :
    pcm179x_digital_mute s m mute = digital_mute_soft { s with is_mute := toU32 mute } m mute := by
  unfold pcm179x_digital_mute
  rcases h with h | ⟨h1, h2⟩
  · simp [h]
  · simp [h1, h2]

theorem digital_mute_dsd_ok (s : pcm179x_private) (m : Regmap) (mute : Int)
    (hin : s.dacmax_register &&& SPDIF_IN = 0) (hm : mute ≠ 0) (hdsd : s.dsd_mode ≠ 0)
    (hok : m.errno m.log.length = 0) :
    pcm179x_digital_mute s m mute =
      digital_mute_soft { s with is_mute := toU32 mute }
        (regmap_update_bits m PCM179X_CONF_CONTROL PCM179X_DSD_ENABLE 0).2 mute := by
  unfold pcm179x_digital_mute
  simp [hin, hm, hdsd, update_ret, hok]

theorem digital_mute_dsd_fail (s : pcm179x_private) (m : Regmap) (mute : Int)
    (hin : s.dacmax_register &&& SPDIF_IN = 0) (hm : mute ≠ 0) (hdsd : s.dsd_mode ≠ 0)
    (hfail : m.errno m.log.length ≠ 0) :
    pcm179x_digital_mute s m mute =
      (-(m.errno m.log.length : Int), { s with is_mute := toU32 mute },
        (regmap_update_bits m PCM179X_CONF_CONTROL PCM179X_DSD_ENABLE 0).2) := by
  unfold pcm179x_digital_mute
  have : 0 < m.errno m.log.length := Nat.pos_of_ne_zero hfail
  simp [hin, hm, hdsd, update_ret, this]

/-- C13, as stated, fails: with SPDIF input off and `dsd_mode` set, a
mute request whose DSD-enable update fails with -5 (`-EIO`) returns -5
after that single update; the soft-mute update is never issued. -/
theorem digital_mute_dsd_single_update :
    (pcm179x_digital_mute { pcm179x_common_init with dsd_mode := 1, dacmax_register := 0x10 }
      (regmap_init (fun k => if k = 0 then 5 else 0)) 1).1 = -5 ∧
    issued (regmap_init (fun k => if k = 0 then 5 else 0))
      (pcm179x_digital_mute { pcm179x_common_init with dsd_mode := 1, dacmax_register := 0x10 }
        (regmap_init (fun k => if k = 0 then 5 else 0)) 1).2.2 = [⟨0x14, 0x20, 0, -5⟩] := by
  exact ⟨rfl, rfl⟩

/-- C13, amended: with SPDIF input off, a non-zero mute request with
`dsd_mode` set issues first the update of register 0x14 under mask 0x20
with value 0 and, when that update succeeds, second the update of
register 0x12 under mask 0x01 with value 1, two updates in all; when the
first update fails the call returns its error after that single update.
With `dsd_mode` clear it issues the soft-mute update alone. A request of
0, in any state, issues exactly the update of register 0x12 under mask
0x01 with value 0 and none of register 0x14. -/
theorem digital_mute_updates (s : pcm179x_private) (m : Regmap) (mute : Int) :
    (s.dacmax_register &&& SPDIF_IN = 0 → mute ≠ 0 → s.dsd_mode ≠ 0 →
      m.errno m.log.length = 0 →
      update_triples (issued m (pcm179x_digital_mute s m mute).2.2) =
        [(PCM179X_CONF_CONTROL, PCM179X_DSD_ENABLE, 0),
          (PCM179X_SOFT_MUTE, PCM179X_MUTE_MASK, 1)]) ∧
    (s.dacmax_register &&& SPDIF_IN = 0 → mute ≠ 0 → s.dsd_mode ≠ 0 →
      m.errno m.log.length ≠ 0 →
      update_triples (issued m (pcm179x_digital_mute s m mute).2.2) =
        [(PCM179X_CONF_CONTROL, PCM179X_DSD_ENABLE, 0)] ∧
      (pcm179x_digital_mute s m mute).1 = -(m.errno m.log.length : Int)) ∧
    (s.dacmax_register &&& SPDIF_IN = 0 → mute ≠ 0 → s.dsd_mode = 0 →
      update_triples (issued m (pcm179x_digital_mute s m mute).2.2) =
        [(PCM179X_SOFT_MUTE, PCM179X_MUTE_MASK, 1)]) ∧
    (mute = 0 →
      update_triples (issued m (pcm179x_digital_mute s m mute).2.2) =
        [(PCM179X_SOFT_MUTE, PCM179X_MUTE_MASK, 0)]) := by
  refine ⟨?_, ?_, ?_, ?_⟩
  · intro hin hm hdsd hok
    rw [digital_mute_dsd_ok s m mute hin hm hdsd hok, digital_mute_soft_eq]
    simp [issued, issued_update, update_triples, hm]
  · intro hin hm hdsd hfail
    rw [digital_mute_dsd_fail s m mute hin hm hdsd hfail]
    simp [issued, issued_update, update_triples]
  · intro hin hm hdsd
    rw [digital_mute_plain s m mute (Or.inr ⟨hin, hdsd⟩), digital_mute_soft_eq]
    simp [issued, issued_update, update_triples, hm]
  · intro hm
    rw [digital_mute_plain s m mute (Or.inl hm), digital_mute_soft_eq]
    simp [issued, issued_update, update_triples, hm]

/-- The amended C13 at a concrete call: DSD playing, SPDIF input off, a
mute request on a bus that accepts every update. -/
theorem digital_mute_updates_witness :
    update_triples (issued (regmap_init (fun _ => 0))
      (pcm179x_digital_mute { pcm179x_common_init with dsd_mode := 1, dacmax_register := 0x10 }
        (regmap_init (fun _ => 0)) 1).2.2) = [(0x14, 0x20, 0), (0x12, 0x01, 1)] :=
  (digital_mute_updates { pcm179x_common_init with dsd_mode := 1, dacmax_register := 0x10 }
    (regmap_init (fun _ => 0)) 1).1 (by decide) (by decide) (by decide) rfl

/-! ## C14 -/

theorem put_input_unchanged (s : pcm179x_private) (value : Int)
    (h : spdif_get_input s = value) : spdif_put_input s value = (0, s) := by
  unfold spdif_get_input at h
  unfold spdif_put_input
  simp [h]

theorem put_input_changed (s : pcm179x_private) (value : Int)
    (h : spdif_get_input s ≠ value) :
    spdif_put_input s value =
      (1, { s with dacmax_register := put_input_dacmax s value }) := by
  unfold spdif_get_input at h
  unfold spdif_put_input put_input_dacmax
  simp only [h, if_false]
  split_ifs <;> rfl

/-- C14: for each of the two SPDIF controls and every state, a put whose
requested value equals what the control's get returns gives 0, issues no
register update and leaves the session record and the register map as
they were. -/
theorem spdif_put_same_value (s : pcm179x_private) (m : Regmap) (value : Int) :
    (spdif_switch_get s = value →
      (spdif_switch_put s m value).1 = 0 ∧
      issued m (spdif_switch_put s m value).2.2 = [] ∧
      (spdif_switch_put s m value).2.1 = s ∧
      (spdif_switch_put s m value).2.2.regs = m.regs) ∧
    (spdif_get_input s = value →
      (spdif_put_input s value).1 = 0 ∧ (spdif_put_input s value).2 = s) := by
  constructor
  · intro h
    rw [switch_put_unchanged s m value h]
    exact ⟨rfl, by simp [issued], rfl, rfl⟩
  · intro h
    rw [put_input_unchanged s value h]
    exact ⟨rfl, rfl⟩

/-- C14 at concrete calls: SPDIF input on and asked on again; SPDIF select
off and asked off again. -/
theorem spdif_put_same_value_witness :
    ((spdif_switch_put { pcm179x_common_init with dacmax_register := 0x20 }
        (regmap_init (fun _ => 0)) 1).1 = 0 ∧
      issued (regmap_init (fun _ => 0))
        (spdif_switch_put { pcm179x_common_init with dacmax_register := 0x20 }
          (regmap_init (fun _ => 0)) 1).2.2 = []) ∧
    (spdif_put_input { pcm179x_common_init with dacmax_register := 0x20 } 0).1 = 0 :=
  have h := spdif_put_same_value { pcm179x_common_init with dacmax_register := 0x20 }
    (regmap_init (fun _ => 0))
  ⟨⟨((h 1).1 rfl).1, ((h 1).1 rfl).2.1⟩, ((h 0).2 rfl).1⟩

/-! ## C15 -/

theorem toU8_and (x f : Nat) (hf : f < 2 ^ 8) : toU8 x &&& f = x &&& f :=
  (and_eq_mod_and x f 8 hf).symm

theorem toU8_or_and (d b f : Nat) (hf : f < 2 ^ 8) :
    toU8 (d ||| b) &&& f = (d &&& f) ||| (b &&& f) := by
  rw [toU8_and _ _ hf, and_or_distrib_right]

theorem toU8_and_and (d b f : Nat) (hf : f < 2 ^ 8) :
    toU8 (d &&& b) &&& f = d &&& (b &&& f) := by
  rw [toU8_and _ _ hf, Nat.and_assoc]

theorem and_bit_cases (d : Nat) :
    (d &&& SPDIF_IN = 0 ∨ d &&& SPDIF_IN = SPDIF_IN) ∧
    (d &&& SPDIF_SEL = 0 ∨ d &&& SPDIF_SEL = SPDIF_SEL) := by
  rw [and_spdif_in_eq, and_spdif_sel_eq]
  rcases and_0x60_cases d with h | h | h | h <;> rw [h] <;> decide

theorem set_bit_other (d b f : Nat) (hf : f < 2 ^ 8) (hb : b &&& f = 0) :
    toU8 (d ||| b) &&& f = d &&& f := by
  rw [toU8_or_and _ _ _ hf, hb, Nat.or_zero]

theorem clear_bit_other (d b f : Nat) (hf : f < 2 ^ 8) (hb : not32 b &&& f = f) :
    toU8 (d &&& not32 b) &&& f = d &&& f := by
  rw [toU8_and_and _ _ _ hf, hb]

theorem clear_bit_self (d b : Nat) (hf : b < 2 ^ 8) (hb : not32 b &&& b = 0) :
    toU8 (d &&& not32 b) &&& b = 0 := by
  rw [toU8_and_and _ _ _ hf, hb, Nat.and_zero]

theorem set_sel_ne_zero (d : Nat) : toU8 (d ||| SPDIF_SEL) &&& SPDIF_SEL ≠ 0 := by
  rw [toU8_or_and _ _ _ (by decide)]
  rcases (and_bit_cases d).2 with h | h <;> rw [h] <;> decide

theorem set_in_ne_zero (d : Nat) : toU8 (d ||| SPDIF_IN) &&& SPDIF_IN ≠ 0 := by
  rw [toU8_or_and _ _ _ (by decide)]
  rcases (and_bit_cases d).1 with h | h <;> rw [h] <;> decide

theorem put_input_dacmax_bits (s : pcm179x_private) (value : Int) :
    (put_input_dacmax s value &&& SPDIF_SEL ≠ 0 ↔ value ≠ 0) ∧
    put_input_dacmax s value &&& SPDIF_IN = s.dacmax_register &&& SPDIF_IN ∧
    put_input_dacmax s value &&& 0x1f = s.dacmax_register &&& 0x1f := by
  unfold put_input_dacmax
  by_cases hv : value = 0
  · simp only [hv, ne_eq, not_true_eq_false, if_false, iff_false, not_not]
    exact ⟨clear_bit_self _ _ (by decide) rfl, clear_bit_other _ _ _ (by decide) rfl,
      clear_bit_other _ _ _ (by decide) rfl⟩
  · simp only [hv, ne_eq, not_false_eq_true, if_true, iff_true]
    exact ⟨set_sel_ne_zero _, set_bit_other _ _ _ (by decide) rfl,
      set_bit_other _ _ _ (by decide) rfl⟩

theorem switch_put_dacmax_bits (s : pcm179x_private) (value : Int) :
    (switch_put_dacmax s value &&& SPDIF_IN ≠ 0 ↔ value ≠ 0) ∧
    switch_put_dacmax s value &&& SPDIF_SEL = s.dacmax_register &&& SPDIF_SEL ∧
    switch_put_dacmax s value &&& 0x1f = s.dacmax_register &&& 0x1f := by
  unfold switch_put_dacmax
  by_cases hv : value = 0
  · simp only [hv, ne_eq, not_true_eq_false, if_false, iff_false, not_not]
    exact ⟨clear_bit_self _ _ (by decide) rfl, clear_bit_other _ _ _ (by decide) rfl,
      clear_bit_other _ _ _ (by decide) rfl⟩
  · simp only [hv, ne_eq, not_false_eq_true, if_true, iff_true]
    exact ⟨set_in_ne_zero _, set_bit_other _ _ _ (by decide) rfl,
      set_bit_other _ _ _ (by decide) rfl⟩

/-- C15: for each of the two SPDIF controls, every state and every
boolean `v` in {0, 1}: the put returns 1 exactly when `v` differs from
what the get returned before the call (and 0 otherwise), the get after
the put returns `v`, and the put leaves the other SPDIF flag and the
clock/format bits (mask 0x1f) of `dacmax_register` as they were. -/
theorem spdif_put_then_get (s : pcm179x_private) (m : Regmap) (v : Int)
    (hv : v = 0 ∨ v = 1) :
    (((spdif_put_input s v).1 = 1 ↔ v ≠ spdif_get_input s) ∧
      ((spdif_put_input s v).1 = 0 ↔ v = spdif_get_input s) ∧
      spdif_get_input (spdif_put_input s v).2 = v ∧
      (spdif_put_input s v).2.dacmax_register &&& SPDIF_IN =
        s.dacmax_register &&& SPDIF_IN ∧
      (spdif_put_input s v).2.dacmax_register &&& 0x1f = s.dacmax_register &&& 0x1f) ∧
    (((spdif_switch_put s m v).1 = 1 ↔ v ≠ spdif_switch_get s) ∧
      ((spdif_switch_put s m v).1 = 0 ↔ v = spdif_switch_get s) ∧
      spdif_switch_get (spdif_switch_put s m v).2.1 = v ∧
      (spdif_switch_put s m v).2.1.dacmax_register &&& SPDIF_SEL =
        s.dacmax_register &&& SPDIF_SEL ∧
      (spdif_switch_put s m v).2.1.dacmax_register &&& 0x1f = s.dacmax_register &&& 0x1f) := by
  constructor
  · by_cases h : spdif_get_input s = v
    · rw [put_input_unchanged s v h]
      simp [h]
    · rw [put_input_changed s v h]
      obtain ⟨h1, h2, h3⟩ := put_input_dacmax_bits s v
      refine ⟨by simp [Ne.symm h], by simp [Ne.symm h], ?_, h2, h3⟩
      show (if put_input_dacmax s v &&& SPDIF_SEL ≠ 0 then (1 : Int) else 0) = v
      rcases hv with hv | hv
      · rw [if_neg (by rw [h1]; simp [hv]), hv]
      · rw [if_pos (by rw [h1]; simp [hv]), hv]
  · by_cases h : spdif_switch_get s = v
    · rw [switch_put_unchanged s m v h]
      simp [h]
    · rw [switch_put_changed s m v h]
      obtain ⟨h1, h2, h3⟩ := switch_put_dacmax_bits s v
      refine ⟨by simp [Ne.symm h], by simp [Ne.symm h], ?_, h2, h3⟩
      show (if switch_put_dacmax s v &&& SPDIF_IN ≠ 0 then (1 : Int) else 0) = v
      rcases hv with hv | hv
      · rw [if_neg (by rw [h1]; simp [hv]), hv]
      · rw [if_pos (by rw [h1]; simp [hv]), hv]

/-- C15 at a concrete call: CLK0 | W32 cached with SPDIF select on;
turning SPDIF input on returns 1, reads back 1 and keeps the rest. -/
theorem spdif_put_then_get_witness :
    (spdif_switch_put { pcm179x_common_init with dacmax_register := 0x4c }
      (regmap_init (fun _ => 0)) 1).1 = 1 ∧
    spdif_switch_get (spdif_switch_put { pcm179x_common_init with dacmax_register := 0x4c }
      (regmap_init (fun _ => 0)) 1).2.1 = 1 ∧
    (spdif_switch_put { pcm179x_common_init with dacmax_register := 0x4c }
      (regmap_init (fun _ => 0)) 1).2.1.dacmax_register &&& SPDIF_SEL = 0x4c &&& SPDIF_SEL :=
  have h := (spdif_put_then_get { pcm179x_common_init with dacmax_register := 0x4c }
    (regmap_init (fun _ => 0)) 1 (Or.inr rfl)).2
  ⟨h.1.2 (by decide), h.2.2.1, h.2.2.2.1⟩

/-! ## C16 -/

/-- The results of the three updates of `spdif_switch_put` are thrown
away: whatever the bus answers, the call returns 0 or 1. -/
theorem switch_put_return_values (s : pcm179x_private) (m : Regmap) (value : Int) :
    (spdif_switch_put s m value).1 = 0 ∨ (spdif_switch_put s m value).1 = 1 := by
  by_cases h : spdif_switch_get s = value
  · rw [switch_put_unchanged s m value h]; exact Or.inl rfl
  · rw [switch_put_changed s m value h]; exact Or.inr rfl

/-- C16 at the failing input: from the state at binding time the SPDIF
input is switched on while the clock update, the first one issued, fails
with -5 (`-EIO`). The call goes on to the soft-mute update and returns 1,
not -5. -/
theorem switch_put_swallows_bus_error :
    (spdif_switch_put pcm179x_common_init (regmap_init (fun k => if k = 0 then 5 else 0)) 1).1
      = 1 ∧
    issued (regmap_init (fun k => if k = 0 then 5 else 0))
      (spdif_switch_put pcm179x_common_init
        (regmap_init (fun k => if k = 0 then 5 else 0)) 1).2.2 =
      [⟨0x20, 0xff, 0x20, -5⟩, ⟨0x12, 0x01, 1, 0⟩] := by
  exact ⟨rfl, rfl⟩

/-! ## C17 -/

theorem writeable_cases (a : Nat) (h : pcm179x_writeable_reg a = true) :
    a = 0x10 ∨ a = 0x11 ∨ a = 0x12 ∨ a = 0x13 ∨ a = 0x14 ∨ a = 0x15 ∨ a = 0x20 := by
  simp only [pcm179x_writeable_reg, pcm179x_accessible_reg, Bool.and_eq_true, Bool.or_eq_true,
    decide_eq_true_eq] at h
  omega

/-- C17: `pcm179x_accessible_reg` holds exactly on 0x10..0x17 and 0x20;
`pcm179x_writeable_reg` holds exactly on the accessible addresses other
than 0x16 and 0x17. So every writable address is readable and has
exactly one entry in `pcm179x_reg_defaults`, and on a simulated register
file writing its default value and reading it back gives that value. -/
theorem register_map (a : Nat) :
    (pcm179x_accessible_reg a = true ↔ (0x10 ≤ a ∧ a ≤ 0x17) ∨ a = 0x20) ∧
    (pcm179x_writeable_reg a = true ↔
      pcm179x_accessible_reg a = true ∧ a ≠ 0x16 ∧ a ≠ 0x17) ∧
    (pcm179x_writeable_reg a = true →
      pcm179x_accessible_reg a = true ∧
      (pcm179x_reg_defaults.filter (fun e => e.1 = a)).length = 1 ∧
      ∀ regs : Nat → Nat,
        (regfile_write regs a (default_value a)).bind (fun r => regfile_read r a) =
          some (default_value a)) := by
  refine ⟨?_, ?_, ?_⟩
  · simp [pcm179x_accessible_reg]
  · simp [pcm179x_writeable_reg, and_assoc]
  · intro h
    rcases writeable_cases a h with h | h | h | h | h | h | h <;> subst h <;>
      exact ⟨rfl, rfl, fun _ => rfl⟩

/-! ## C18 -/

theorem rate_switch_documented (rate : Nat) (format : Int) (v : Nat)
    (h : hw_params_rate_switch rate format = some v) (hle : rate ≤ 192000) :
    v = documented_rate_bits rate := by
  unfold hw_params_rate_switch at h
  simp only at h
  split_ifs at h <;> first
    | omega
    | (subst_vars; cases h; rfl)

theorem format_switch_bits (format : Int) (v : Nat) :
    hw_params_format_switch format v =
      v ||| ((if format = SNDRV_PCM_FORMAT_DSD_U16_LE then DSD_EN else 0) |||
        (if format = SNDRV_PCM_FORMAT_S24_LE ∨ format = SNDRV_PCM_FORMAT_S32_LE then W32
         else 0)) := by
  unfold hw_params_format_switch
  by_cases h1 : format = SNDRV_PCM_FORMAT_DSD_U16_LE
  · subst h1; simp
  · by_cases h2 : format = SNDRV_PCM_FORMAT_S16_LE
    · subst h2; simp
    · by_cases h3 : format = SNDRV_PCM_FORMAT_S24_LE ∨ format = SNDRV_PCM_FORMAT_S32_LE
      · simp [h1, h2, h3]
      · simp [h1, h2, h3]

/-- C18, as stated, fails twice. With SPDIF input on, an accepted call
for 48000 Hz S16_LE writes 0x24 to register 0x20, more than the OR of
the rate bits (CLK0) and the format bits (none). And an accepted call for
44100 Hz S16_LE with a word width of 24 writes 0x00: W32 is not set
although the width is 24. -/
theorem hw_params_clock_not_rate_or_width :
    ((pcm179x_hw_params
        { pcm179x_common_init with format := SND_SOC_DAIFMT_I2S, dacmax_register := 0x20 }
        (regmap_init (fun _ => 0)) ⟨48000, SNDRV_PCM_FORMAT_S16_LE, 16⟩).1 = 0 ∧
      clock_values (issued (regmap_init (fun _ => 0))
        (pcm179x_hw_params
          { pcm179x_common_init with format := SND_SOC_DAIFMT_I2S, dacmax_register := 0x20 }
          (regmap_init (fun _ => 0)) ⟨48000, SNDRV_PCM_FORMAT_S16_LE, 16⟩).2.2) = [0x24] ∧
      (0x24 : Nat) ≠ documented_rate_bits 48000 ||| 0) ∧
    ((pcm179x_hw_params { pcm179x_common_init with format := SND_SOC_DAIFMT_I2S }
        (regmap_init (fun _ => 0)) ⟨44100, SNDRV_PCM_FORMAT_S16_LE, 24⟩).1 = 0 ∧
      clock_values (issued (regmap_init (fun _ => 0))
        (pcm179x_hw_params { pcm179x_common_init with format := SND_SOC_DAIFMT_I2S }
          (regmap_init (fun _ => 0)) ⟨44100, SNDRV_PCM_FORMAT_S16_LE, 24⟩).2.2) = [0x00] ∧
      (0x00 : Nat) &&& W32 ≠ W32) := by
  refine ⟨⟨rfl, rfl, by decide⟩, rfl, rfl, by decide⟩

/-- C18, amended: for every accepted call with a rate of at most 192000,
the one value written to register 0x20 carries, in its clock/format bits
(mask 0x1f), the OR of the documented rate bits and the format bits, the
format bits being DSD_EN exactly when the format is DSD_U16_LE and W32
exactly when the format is S24_LE or S32_LE, whatever the word width is,
and neither for any other format; its SPDIF_IN and SPDIF_SEL bits are
those stored in `dacmax_register` before the call. -/
theorem hw_params_clock_bits (s : pcm179x_private) (m : Regmap) (p : snd_pcm_hw_params)
    (hacc : (pcm179x_hw_params s m p).1 = 0) (hrate : p.rate ≤ 192000) :
    ∃ x, clock_values (issued m (pcm179x_hw_params s m p).2.2) = [x] ∧
      x &&& 0x1f =
        documented_rate_bits p.rate |||
          ((if p.format = SNDRV_PCM_FORMAT_DSD_U16_LE then DSD_EN else 0) |||
            (if p.format = SNDRV_PCM_FORMAT_S24_LE ∨ p.format = SNDRV_PCM_FORMAT_S32_LE
              then W32 else 0)) ∧
      x &&& (SPDIF_IN ||| SPDIF_SEL) = s.dacmax_register &&& (SPDIF_IN ||| SPDIF_SEL) := by
  cases hr : hw_params_rate_switch p.rate p.format with
  | none =>
    rw [hw_params_rate_rejected s m p hr] at hacc
    have hne : (-EINVAL : Int) = 0 := hacc
    exact absurd hne (by decide)
  | some v =>
    refine ⟨_, hw_params_clock_values s m p v hr, ?_, ?_⟩
    · have h3 := (merge_bits s.dacmax_register _ (resolved_bits_lt _ _ _ hr)).2.2
      unfold hw_params_dacmax
      rw [h3, format_switch_bits, rate_switch_documented _ _ _ hr hrate]
    · have h1 := (merge_bits s.dacmax_register _ (resolved_bits_lt _ _ _ hr)).1
      have h60 : ∀ x : Nat, x &&& 0xff &&& (SPDIF_IN ||| SPDIF_SEL) =
          x &&& (SPDIF_IN ||| SPDIF_SEL) := by
        intro x; rw [Nat.and_assoc]; rfl
      unfold hw_params_dacmax
      rw [h60, h1]

/-- The amended C18 at a concrete call: 96000 Hz S32_LE over I2S with
SPDIF select on gives 0x4e, that is SPDIF_SEL, CLK0 | CLK1 and W32. -/
theorem hw_params_clock_bits_witness :
    ∃ x, clock_values (issued (regmap_init (fun _ => 0))
        (pcm179x_hw_params
          { pcm179x_common_init with format := SND_SOC_DAIFMT_I2S, dacmax_register := 0x40 }
          (regmap_init (fun _ => 0)) ⟨96000, SNDRV_PCM_FORMAT_S32_LE, 32⟩).2.2) = [x] ∧
      x &&& 0x1f = 0x0e ∧ x &&& (SPDIF_IN ||| SPDIF_SEL) = 0x40 :=
  hw_params_clock_bits
    { pcm179x_common_init with format := SND_SOC_DAIFMT_I2S, dacmax_register := 0x40 }
    (regmap_init (fun _ => 0)) ⟨96000, SNDRV_PCM_FORMAT_S32_LE, 32⟩ rfl (by decide)

/-! ## C19 -/

/-- C19: for every state and every value that changes the SPDIF-input
flag, `spdif_switch_put` returns 1 and issues, in this order, the update
of the DSD-enable bit of register 0x14 (only when `dsd_mode` is set),
the update of clock register 0x20 under mask 0xff with the new
`dacmax_register`, and the update of the soft-mute bit of register 0x12
(mask 0x01) with `is_mute AND NOT previous_input_flag`. -/
theorem switch_put_update_order (s : pcm179x_private) (m : Regmap) (value : Int)
    (hc : spdif_switch_get s ≠ value) :
    (spdif_switch_put s m value).1 = 1 ∧
    update_triples (issued m (spdif_switch_put s m value).2.2) =
      (if s.dsd_mode ≠ 0 then
        [(PCM179X_CONF_CONTROL, PCM179X_DSD_ENABLE, if value = 0 then 1 else 0)]
       else []) ++
      [(DACMAX_CLOCK, 0xff, (spdif_switch_put s m value).2.1.dacmax_register),
        (PCM179X_SOFT_MUTE, PCM179X_MUTE_MASK,
          s.is_mute &&& (if spdif_switch_get s = 1 then 0 else 1))] := by
  rw [switch_put_changed s m value hc]
  refine ⟨rfl, ?_⟩
  have hg : (if spdif_switch_get s = 1 then (0 : Nat) else 1) =
      (if s.dacmax_register &&& SPDIF_IN ≠ 0 then 0 else 1) := by
    unfold spdif_switch_get
    by_cases hin : s.dacmax_register &&& SPDIF_IN = 0 <;> simp [hin]
  rw [hg]
  by_cases hdsd : s.dsd_mode = 0
  · simp [issued, issued_update, update_triples, hdsd]
  · simp [issued, issued_update, update_triples, hdsd]

/-- C19 at a concrete call: DSD playing and muted, SPDIF input switched
on. -/
theorem switch_put_update_order_witness :
    (spdif_switch_put { pcm179x_common_init with dsd_mode := 1, dacmax_register := 0x10 }
      (regmap_init (fun _ => 0)) 1).1 = 1 ∧
    update_triples (issued (regmap_init (fun _ => 0))
      (spdif_switch_put { pcm179x_common_init with dsd_mode := 1, dacmax_register := 0x10 }
        (regmap_init (fun _ => 0)) 1).2.2) =
      [(0x14, 0x20, 0), (0x20, 0xff, 0x30), (0x12, 0x01, 1)] :=
  switch_put_update_order { pcm179x_common_init with dsd_mode := 1, dacmax_register := 0x10 }
    (regmap_init (fun _ => 0)) 1 (by decide)

/-! ## C20 -/

theorem update_all_ok (m : Regmap) (reg mask val : Nat) (h : ∀ k, m.errno k = 0) :
    ∀ k, (regmap_update_bits m reg mask val).2.errno k = 0 := by
  intro k; rw [update_errno]; exact h k

/-- C20, as stated, fails: SPDIF input is switched on, a mute is
requested (a no-op that records `is_mute = 1`), and SPDIF input is
switched off again, every update succeeding. Afterwards `is_mute` is 1
and the soft-mute bit of register 0x12 is 0. -/
theorem switch_put_off_unmutes :
    spdif_switch_get (run (pcm179x_common_init, regmap_init (fun _ => 0))
      [Op.switch_put 1, Op.digital_mute 1]).1 = 1 ∧
    (run (pcm179x_common_init, regmap_init (fun _ => 0))
      [Op.switch_put 1, Op.digital_mute 1, Op.switch_put 0]).1.is_mute = 1 ∧
    spdif_switch_get (run (pcm179x_common_init, regmap_init (fun _ => 0))
      [Op.switch_put 1, Op.digital_mute 1, Op.switch_put 0]).1 = 0 ∧
    (run (pcm179x_common_init, regmap_init (fun _ => 0))
      [Op.switch_put 1, Op.digital_mute 1, Op.switch_put 0]).2.log =
      [⟨0x20, 0xff, 0x20, 0⟩, ⟨0x12, 0x01, 1, 0⟩, ⟨0x20, 0xff, 0x00, 0⟩, ⟨0x12, 0x01, 0, 0⟩] ∧
    (run (pcm179x_common_init, regmap_init (fun _ => 0))
      [Op.switch_put 1, Op.digital_mute 1, Op.switch_put 0]).2.regs PCM179X_SOFT_MUTE
        &&& PCM179X_MUTE_MASK = 0 := by
  refine ⟨?_, ?_, ?_, ?_, ?_⟩ <;> rfl

/-- C20, amended: in every state with SPDIF input on, `spdif_switch_put(0)`
with every update succeeding turns the input flag off, leaves `is_mute`
as it was, and leaves the soft-mute bit (bit 0) of register 0x12 at 0
whatever `is_mute` is: the value written is `is_mute AND NOT
previous_input_flag`, which is 0. -/
theorem switch_put_off_clears_mute (s : pcm179x_private) (m : Regmap)
    (hin : spdif_switch_get s = 1) (hok : ∀ k, m.errno k = 0) :
    spdif_switch_get (spdif_switch_put s m 0).2.1 = 0 ∧
    (spdif_switch_put s m 0).2.1.is_mute = s.is_mute ∧
    (spdif_switch_put s m 0).2.2.regs PCM179X_SOFT_MUTE &&& PCM179X_MUTE_MASK = 0 := by
  have hc : spdif_switch_get s ≠ 0 := by rw [hin]; decide
  have hflag : s.dacmax_register &&& SPDIF_IN ≠ 0 := by
    intro h0
    unfold spdif_switch_get at hin
    rw [if_neg (by simpa using h0)] at hin
    exact absurd hin (by decide)
  rw [switch_put_changed s m 0 hc]
  refine ⟨?_, rfl, ?_⟩
  · show (if switch_put_dacmax s 0 &&& SPDIF_IN ≠ 0 then (1 : Int) else 0) = 0
    rw [if_neg (by rw [(switch_put_dacmax_bits s 0).1]; simp)]
  · simp only
    rw [update_regs_same _ _ _ _ (by
      apply update_all_ok
      split_ifs
      · exact update_all_ok _ _ _ _ hok
      · exact hok)]
    rw [if_pos hflag, Nat.and_zero, Nat.zero_and, Nat.or_zero, toU8_and_and _ _ _ (by decide)]
    exact Nat.and_zero _

/-- The amended C20 at a concrete call: muted, SPDIF input on, register
0x12 holding its soft-mute bit. -/
theorem switch_put_off_clears_mute_witness :
    (spdif_switch_put { pcm179x_common_init with dacmax_register := 0x20 }
      (regmap_init (fun _ => 0)) 0).2.1.is_mute = 1 ∧
    (spdif_switch_put { pcm179x_common_init with dacmax_register := 0x20 }
      (regmap_init (fun _ => 0)) 0).2.2.regs PCM179X_SOFT_MUTE &&& PCM179X_MUTE_MASK = 0 :=
  (switch_put_off_clears_mute { pcm179x_common_init with dacmax_register := 0x20 }
    (regmap_init (fun _ => 0)) rfl (fun _ => rfl)).2

/-! ## C21 -/

theorem giotto_mask_agrees (rate : Nat) (format : Int) (mask : Nat)
    (h : (giotto_format_switch format 0).bind (giotto_rate_switch rate format) = some mask) :
    ∃ v, hw_params_rate_switch rate format = some v ∧
      hw_params_format_switch format v = mask := by
  unfold giotto_format_switch at h
  by_cases h1 : format = SNDRV_PCM_FORMAT_DSD_U16_LE
  · subst h1
    simp only [if_true, Option.some_bind] at h
    unfold giotto_rate_switch at h
    simp only at h
    split_ifs at h <;> (subst_vars; cases h; exact ⟨_, rfl, rfl⟩)
  · by_cases h2 : format = SNDRV_PCM_FORMAT_S16_LE
    · subst h2
      simp only [if_neg h1, if_true, Option.some_bind] at h
      unfold giotto_rate_switch at h
      simp only at h
      split_ifs at h <;> (subst_vars; cases h; exact ⟨_, rfl, rfl⟩)
    · by_cases h3 : format = SNDRV_PCM_FORMAT_S24_LE
      · subst h3
        simp only [if_neg h1, if_neg h2, true_or, if_true, Option.some_bind] at h
        unfold giotto_rate_switch at h
        simp only at h
        split_ifs at h <;> (subst_vars; cases h; exact ⟨_, rfl, rfl⟩)
      · by_cases h4 : format = SNDRV_PCM_FORMAT_S32_LE
        · subst h4
          simp only [if_neg h1, if_neg h2, or_true, if_true, Option.some_bind] at h
          unfold giotto_rate_switch at h
          simp only at h
          split_ifs at h <;> (subst_vars; cases h; exact ⟨_, rfl, rfl⟩)
        · simp [h1, h2, h3, h4] at h

theorem giotto_accepts (p : snd_pcm_hw_params) (h : (giotto_ext_clock_update p).1 = 0) :
    ∃ mask, (giotto_ext_clock_update p).2 = some mask ∧
      (giotto_format_switch p.format 0).bind (giotto_rate_switch p.rate p.format) =
        some mask := by
  unfold giotto_ext_clock_update at h ⊢
  simp only at h ⊢
  cases hf : giotto_format_switch p.format 0 with
  | none =>
    rw [hf] at h
    have hne : (-EINVAL : Int) = 0 := h
    exact absurd hne (by decide)
  | some m1 =>
    rw [hf] at h
    simp only at h ⊢
    cases hr : giotto_rate_switch p.rate p.format m1 with
    | none =>
      rw [hr] at h
      have hne : (-EINVAL : Int) = 0 := h
      exact absurd hne (by decide)
    | some m2 => exact ⟨m2, rfl, hr⟩

/-- C21: for every (rate, format) that `giotto_ext_clock_update` accepts
(returns 0), the rate switch of `pcm179x_hw_params` accepts it as well,
the mask the board driver computed equals the clock/format bits the
codec resolves, and these are the bits (mask 0x1f) that
`pcm179x_hw_params` leaves in `dacmax_register` next to the stored SPDIF
bits, for every session record, register map and word width. -/
theorem giotto_codec_agree (p : snd_pcm_hw_params) (h : (giotto_ext_clock_update p).1 = 0) :
    ∃ mask v, (giotto_ext_clock_update p).2 = some mask ∧
      hw_params_rate_switch p.rate p.format = some v ∧
      hw_params_format_switch p.format v = mask ∧
      ∀ (s : pcm179x_private) (m : Regmap),
        (pcm179x_hw_params s m p).2.1.dacmax_register =
          toU8 (toU8 (s.dacmax_register &&& (SPDIF_IN ||| SPDIF_SEL)) ||| mask) ∧
        (pcm179x_hw_params s m p).2.1.dacmax_register &&& not32 (SPDIF_IN ||| SPDIF_SEL) =
          mask := by
  obtain ⟨mask, hm, hb⟩ := giotto_accepts p h
  obtain ⟨v, hv, hfm⟩ := giotto_mask_agrees p.rate p.format mask hb
  refine ⟨mask, v, hm, hv, hfm, ?_⟩
  intro s m
  have hd := (hw_params_commits s m p v hv).2
  rw [hd]
  unfold hw_params_dacmax
  rw [hfm]
  refine ⟨rfl, ?_⟩
  have hlt : mask < 32 := by rw [← hfm]; exact resolved_bits_lt _ _ _ hv
  exact (merge_bits s.dacmax_register mask hlt).2.1

/-- C21 at a concrete call: 352800 Hz DSD_U16_LE is accepted by the board
driver with mask 0x1b, and accepted by the codec's rate switch with the
same bits. -/
theorem giotto_codec_agree_witness :
    (giotto_ext_clock_update ⟨352800, SNDRV_PCM_FORMAT_DSD_U16_LE, 16⟩).1 = 0 ∧
    ∃ mask v, (giotto_ext_clock_update ⟨352800, SNDRV_PCM_FORMAT_DSD_U16_LE, 16⟩).2 = some mask ∧
      hw_params_rate_switch 352800 SNDRV_PCM_FORMAT_DSD_U16_LE = some v ∧
      hw_params_format_switch SNDRV_PCM_FORMAT_DSD_U16_LE v = mask ∧
      ∀ (s : pcm179x_private) (m : Regmap),
        (pcm179x_hw_params s m ⟨352800, SNDRV_PCM_FORMAT_DSD_U16_LE, 16⟩).2.1.dacmax_register =
          toU8 (toU8 (s.dacmax_register &&& (SPDIF_IN ||| SPDIF_SEL)) ||| mask) ∧
        (pcm179x_hw_params s m ⟨352800, SNDRV_PCM_FORMAT_DSD_U16_LE, 16⟩).2.1.dacmax_register
          &&& not32 (SPDIF_IN ||| SPDIF_SEL) = mask :=
  ⟨rfl, giotto_codec_agree ⟨352800, SNDRV_PCM_FORMAT_DSD_U16_LE, 16⟩ rfl⟩

/-! ## C22 -/

theorem ds1807_byte (val : Int) (h0 : -90 ≤ val) (h1 : val ≤ 0) :
    ((toU8 (toU32 (if val = -90 then 64 else -val)) : Nat) : Int) =
      if val = -90 then 64 else -val := by
  have hx0 : (0 : Int) ≤ (if val = -90 then 64 else -val) := by
    split_ifs <;> omega
  have hx1 : (if val = -90 then (64 : Int) else -val) ≤ 90 := by
    split_ifs <;> omega
  have hn := toU32_of_range _ hx0 (by omega)
  unfold toU8
  omega

theorem ds1807_write_checked (hwgain bus_ret : Int) (pot : Nat) (val val2 : Int) :
    ds1807_write_raw hwgain bus_ret pot val val2 hwgain =
      if val2 ≠ 0 ∨ val < -90 ∨ val > 0 then (-EINVAL, none)
      else (bus_ret, some (toU8 (DS1807_WRITE pot),
        toU8 (toU32 (if val = -90 then 64 else -val)))) := by
  unfold ds1807_write_raw
  rw [if_pos rfl]

theorem ds1807_read_checked (hwgain micro_db recv_ret : Int) (result : List Nat) (pot : Nat)
    (h : 0 ≤ recv_ret) :
    ds1807_read_raw hwgain micro_db recv_ret result pot hwgain =
      (micro_db, some (if (result.getD pot 0 : Int) = 64 then -90
        else -(result.getD pot 0 : Int), 0)) := by
  unfold ds1807_read_raw
  rw [if_pos rfl, if_neg (not_lt.mpr h)]

/-- C22, as stated, fails at -64: the write is accepted and sends the
byte 64, the code of mute, and `ds1807_read_raw` turns a wiper byte of 64
into -90, not -64. (The constants of the IIO headers are taken as 15 and
4 here; their values play no part.) -/
theorem ds1807_minus_64_reads_as_mute :
    ds1807_write_raw 15 0 0 (-64) 0 15 = (0, some (0xa9, 64)) ∧
    ds1807_read_raw 15 4 2 [64, 0] 0 15 = (4, some (-90, 0)) := by
  exact ⟨rfl, rfl⟩

/-- C22, amended: `ds1807_write_raw` lets a HARDWAREGAIN write through to
the bus exactly when `val2 = 0` and `-90 ≤ val ≤ 0`, and returns -EINVAL
otherwise; for every accepted `val` other than -64 the wiper byte it
sends is 64 when `val = -90` and `-val` otherwise, and the conversion of
`ds1807_read_raw` on that byte gives back `val` with `val2 = 0`. -/
theorem ds1807_gain_round_trip (hwgain micro_db bus_ret recv_ret : Int) (pot : Nat)
    (val val2 : Int) :
    ((ds1807_write_raw hwgain bus_ret pot val val2 hwgain).2 ≠ none ↔
      (val2 = 0 ∧ -90 ≤ val ∧ val ≤ 0)) ∧
    ((ds1807_write_raw hwgain bus_ret pot val val2 hwgain).2 = none →
      (ds1807_write_raw hwgain bus_ret pot val val2 hwgain).1 = -EINVAL) ∧
    (val2 = 0 → -90 ≤ val → val ≤ 0 → val ≠ -64 →
      ∃ b : Nat,
        ds1807_write_raw hwgain bus_ret pot val val2 hwgain =
          (bus_ret, some (toU8 (DS1807_WRITE pot), b)) ∧
        (b : Int) = (if val = -90 then 64 else -val) ∧
        ∀ result : List Nat, result.getD pot 0 = b → 0 ≤ recv_ret →
          ds1807_read_raw hwgain micro_db recv_ret result pot hwgain =
            (micro_db, some (val, 0))) := by
  rw [ds1807_write_checked]
  by_cases hv : val2 ≠ 0 ∨ val < -90 ∨ val > 0
  · rw [if_pos hv]
    refine ⟨⟨fun h => absurd rfl h, fun h => ?_⟩, fun _ => rfl, ?_⟩
    · exfalso; rcases hv with hv | hv | hv <;> omega
    · intro h2 h0 h1 _
      exfalso; rcases hv with hv | hv | hv <;> omega
  · rw [if_neg hv]
    have hv' : val2 = 0 ∧ -90 ≤ val ∧ val ≤ 0 := by
      push_neg at hv; exact ⟨hv.1, by omega, by omega⟩
    refine ⟨⟨fun _ => hv', fun _ => by simp⟩, fun h => by simp at h, ?_⟩
    intro _ h0 h1 h64
    have hb := ds1807_byte val h0 h1
    refine ⟨_, rfl, hb, ?_⟩
    intro result hres hrecv
    rw [ds1807_read_checked hwgain micro_db recv_ret result pot hrecv, hres, hb]
    by_cases hm : val = -90
    · simp [hm]
    · have hne : ¬ (-val = 64) := by omega
      simp [hm, hne]

/-- The amended C22 at a concrete write: a gain of -63 on potentiometer 1
goes out as the byte 63 and reads back as -63. -/
theorem ds1807_gain_round_trip_witness :
    ∃ b : Nat,
      ds1807_write_raw 15 0 1 (-63) 0 15 = (0, some (toU8 (DS1807_WRITE 1), b)) ∧
      (b : Int) = (if (-63 : Int) = -90 then 64 else -(-63)) ∧
      ∀ result : List Nat, result.getD 1 0 = b → (0 : Int) ≤ 2 →
        ds1807_read_raw 15 4 2 result 1 15 = (4, some (-63, 0)) :=
  (ds1807_gain_round_trip 15 4 0 2 1 (-63) 0).2.2 rfl (by decide) (by decide) (by decide)
end Pcm179x
